import Mathlib

/-!
Message dispatch core: validation, option normalisation, receive preferences, push.

A shallow embedding of

* `internal/rpc/msg/send_msg.go` (`messageVerification`, `encapsulateMsgData`,
  `userIsMuteAndIsAdminInGroup`, `groupIsMuted`), and
* `internal/push/push_to_client.go` (`MsgToUser`, `MsgToSuperGroupUser`,
  `GetConnsAndOnlinePush`, `offlinePushMsg`, `getOfflinePushInfos`,
  `GetOfflinePushOpts`).

Conventions.  Go `int32`/`int64` values are `Int` (no arithmetic is performed on
them, only comparisons).  A Go slice is a `List`, the nil slice being `[]`.  A Go
`map[string]bool` is a lookup function `String → Option Bool`, and a possibly nil
map is an `Option` of it.  An `error` is the text of its `Error()` method, except
in package `push` where the sentinel `ErrCallbackContinue` must be told apart.
Every external collaborator (caches, RPC peers, web hooks, the clock, JSON and
protobuf decoding) is a field of an environment record whose value is the
answer the collaborator gives.
-/

namespace OpenIM

/-! ## Constants of package `constant` -/

/-- The named constants of package `constant` that the two source files use.  The
package is not part of the sources at hand, so the values are parameters. -/
structure Constants where
  Text : Int
  Picture : Int
  Voice : Int
  Video : Int
  File : Int
  AtText : Int
  Merger : Int
  Card : Int
  Location : Int
  Custom : Int
  Quote : Int
  Revoke : Int
  HasReadReceipt : Int
  Typing : Int
  GroupHasReadReceipt : Int
  AdvancedRevoke : Int
  Common : Int
  GroupMsg : Int
  SignalMsg : Int
  NotificationBegin : Int
  NotificationEnd : Int
  SignalingNotificationBegin : Int
  SignalingNotification : Int
  SignalingNotificationEnd : Int
  SingleChatType : Int
  GroupChatType : Int
  SuperGroupChatType : Int
  IsHistory : String
  IsPersistent : String
  IsSenderSync : String
  IsConversationUpdate : String
  IsSenderConversationUpdate : String
  IsUnreadCount : String
  IsOfflinePush : String
  GroupOrdinaryUsers : Int
  GroupStatusMuted : Int
  SuperGroup : Int
  WebPlatformID : Int
  TerminalPC : String
  ReceiveMessage : Int
  NotReceiveMessage : Int
  ReceiveNotNotifyMessage : Int

/-- The case labels of the `switch msg.ContentType` in `encapsulateMsgData` that
fall through to the body of `case constant.Quote`, in source order. -/
def Constants.ordinaryLabels (c : Constants) : List Int :=
  [c.Text, c.Picture, c.Voice, c.Video, c.File, c.AtText, c.Merger, c.Card,
   c.Location, c.Custom, c.Quote]

/-- All case labels of the `switch msg.ContentType` in `encapsulateMsgData`, in
source order. -/
def Constants.switchLabels (c : Constants) : List Int :=
  c.ordinaryLabels ++ [c.Revoke, c.HasReadReceipt, c.Typing]

/-- The labels of one Go `switch` are pairwise different constants (the compiler
rejects a duplicate case). -/
def Constants.SwitchLabelsDistinct (c : Constants) : Prop :=
  c.switchLabels.Nodup

instance (c : Constants) : Decidable c.SwitchLabelsDistinct := by
  unfold Constants.SwitchLabelsDistinct; infer_instance

/-- The labels of the `switch data.MsgData.SessionType` in `messageVerification`
are pairwise different constants. -/
def Constants.SessionLabelsDistinct (c : Constants) : Prop :=
  [c.SingleChatType, c.GroupChatType, c.SuperGroupChatType].Nodup

instance (c : Constants) : Decidable c.SessionLabelsDistinct := by
  unfold Constants.SessionLabelsDistinct; infer_instance

/-- A concrete choice of the constants, on which the definitions below can be
evaluated. -/
def sampleConstants : Constants where
  Text := 101
  Picture := 102
  Voice := 103
  Video := 104
  File := 105
  AtText := 106
  Merger := 107
  Card := 108
  Location := 109
  Custom := 110
  Revoke := 111
  HasReadReceipt := 112
  Typing := 113
  Quote := 114
  GroupHasReadReceipt := 116
  AdvancedRevoke := 118
  Common := 200
  GroupMsg := 201
  SignalMsg := 202
  NotificationBegin := 1000
  NotificationEnd := 3000
  SignalingNotificationBegin := 1600
  SignalingNotification := 1601
  SignalingNotificationEnd := 1649
  SingleChatType := 1
  GroupChatType := 2
  SuperGroupChatType := 3
  IsHistory := "history"
  IsPersistent := "persistent"
  IsSenderSync := "senderSync"
  IsConversationUpdate := "conversationUpdate"
  IsSenderConversationUpdate := "senderConversationUpdate"
  IsUnreadCount := "unreadCount"
  IsOfflinePush := "offlinePush"
  GroupOrdinaryUsers := 1
  GroupStatusMuted := 3
  SuperGroup := 2
  WebPlatformID := 5
  TerminalPC := "PC"
  ReceiveMessage := 0
  NotReceiveMessage := 1
  ReceiveNotNotifyMessage := 2

/-! ## Messages (`sdkws.MsgData`) -/

/-- A non-nil Go `map[string]bool`: the lookup function of the map. -/
abbrev OptionMap := String → Option Bool

/-- The map with no key. -/
def OptionMap.empty : OptionMap := fun _ => none

/-- The Go assignment `m[key] = value`. -/
def OptionMap.insert (m : OptionMap) (key : String) (value : Bool) : OptionMap :=
  fun k => if k = key then some value else m k

/-- The offline-push hint `sdkws.OfflinePushInfo`. -/
structure OfflinePushInfo where
  Title : String
  Desc : String
  Ex : String
  IOSPushSound : String
  IOSBadgeCount : Int
  deriving DecidableEq, Repr

/-- The message envelope `sdkws.MsgData` (the fields the two files read or write).
`Options = none` is the nil map, `OfflinePushInfo = none` the nil pointer. -/
structure MsgData where
  SendID : String
  RecvID : String
  GroupID : String
  ClientMsgID : String
  ServerMsgID : String
  SenderNickname : String
  SessionType : Int
  ContentType : Int
  Content : String
  Seq : Int
  SendTime : Int
  Options : Option OptionMap
  OfflinePushInfo : Option OfflinePushInfo

/-! ## Helpers of package `utils` -/

/-- Modelled from the spec: `utils.IsContain(target, list)`, which is not part of
the sources at hand; the spec reads it as membership (`sender ∈ blocklist`). -/
def IsContain (target : String) (list : List String) : Bool :=
  list.contains target

/-- Modelled from the spec: `utils.SetSwitchFromOptions(options, key, value)`,
which is not part of the sources at hand; the spec has it set the flag `key` to
`value` and keep every other entry.  The map is passed by value, so a nil map of
the caller is still nil after the call. -/
def SetSwitchFromOptions (options : Option OptionMap) (key : String) (value : Bool) :
    Option OptionMap :=
  options.map fun m => m.insert key value

/-- Modelled from the spec: `utils.GetSwitchFromOptions(options, key)`, which is
not part of the sources at hand.  The spec makes `IsOfflinePush=false` the
terminal mark and lets a message that carries no mark take the offline path
(scenario S3), so the switch is off exactly when the map holds `key ↦ false`. -/
def GetSwitchFromOptions (options : Option OptionMap) (key : String) : Bool :=
  match options with
  | none => true
  | some m =>
    match m key with
    | some false => false
    | _ => true

/-! ## `encapsulateMsgData` (send_msg.go, lines 265-310) -/

/-- The function `encapsulateMsgData`.  `serverMsgID` is the value of
`GetMsgID(msg.SendID)` and `sendTime` the value of
`utils.GetCurrentTimestampByMill()` at the call.  The `switch` is read top to
bottom; the labels `Text` to `Custom` fall through to the body of `Quote`, and a
content type that matches no label leaves the message as stamped. -/
def encapsulateMsgData (c : Constants) (serverMsgID : String) (sendTime : Int)
    (msg : MsgData) : MsgData :=
  let msg := { msg with ServerMsgID := serverMsgID, SendTime := sendTime }
  if msg.ContentType ∈ c.ordinaryLabels then
    let o := SetSwitchFromOptions msg.Options c.IsConversationUpdate true
    let o := SetSwitchFromOptions o c.IsUnreadCount true
    let o := SetSwitchFromOptions o c.IsSenderSync true
    { msg with Options := o }
  else if msg.ContentType = c.Revoke then
    let o := SetSwitchFromOptions msg.Options c.IsUnreadCount false
    let o := SetSwitchFromOptions o c.IsOfflinePush false
    { msg with Options := o }
  else if msg.ContentType = c.HasReadReceipt then
    let o := SetSwitchFromOptions msg.Options c.IsConversationUpdate false
    let o := SetSwitchFromOptions o c.IsSenderConversationUpdate false
    let o := SetSwitchFromOptions o c.IsUnreadCount false
    let o := SetSwitchFromOptions o c.IsOfflinePush false
    { msg with Options := o }
  else if msg.ContentType = c.Typing then
    let o := SetSwitchFromOptions msg.Options c.IsHistory false
    let o := SetSwitchFromOptions o c.IsPersistent false
    let o := SetSwitchFromOptions o c.IsSenderSync false
    let o := SetSwitchFromOptions o c.IsConversationUpdate false
    let o := SetSwitchFromOptions o c.IsSenderConversationUpdate false
    let o := SetSwitchFromOptions o c.IsUnreadCount false
    let o := SetSwitchFromOptions o c.IsOfflinePush false
    { msg with Options := o }
  else
    msg

/-- The list `ExcludeContentType` (send_msg.go, lines 25-27): the two
read-receipt content types. -/
def ExcludeContentType (c : Constants) : List Int :=
  [c.HasReadReceipt, c.GroupHasReadReceipt]

/-- The map `m` with every key of `keys` forced to `value` and every other key
as in `m`. -/
def OptionMap.override (m : OptionMap) (keys : List String) (value : Bool) : OptionMap :=
  fun k => if k ∈ keys then some value else m k

/-- A message with a present, empty option map, used in examples. -/
def sampleMsg (c : Constants) (contentType : Int) : MsgData where
  SendID := "u1"
  RecvID := "u2"
  GroupID := "g"
  ClientMsgID := "c1"
  ServerMsgID := ""
  SenderNickname := "n1"
  SessionType := c.SingleChatType
  ContentType := contentType
  Content := ""
  Seq := 0
  SendTime := 0
  Options := some OptionMap.empty
  OfflinePushInfo := none

/-- A message whose option map holds `true` for every key, used in examples. -/
def sampleMsgAllOn (c : Constants) (contentType : Int) : MsgData :=
  { sampleMsg c contentType with Options := some fun _ => some true }

/-! ## The validator `messageVerification` (send_msg.go, lines 67-264) -/

/-- The request `msg.SendMsgReq`. -/
structure SendMsgReq where
  OperationID : String
  MsgData : MsgData

/-- The answer of the cache RPCs `GetBlackIDListFromCache` and
`GetFriendIDListFromCache`: `CommonResp.ErrCode` and `UserIDList`. -/
structure CacheResp where
  ErrCode : Int
  UserIDList : List String
  deriving DecidableEq, Repr

/-- The cached member record; `MuteEndTime` is `MuteEndTime.Unix()`. -/
structure GroupMemberInfo where
  MuteEndTime : Int
  RoleLevel : Int
  deriving DecidableEq, Repr

/-- The cached group record. -/
structure GroupInfo where
  Status : Int
  GroupType : Int
  deriving DecidableEq, Repr

/-- The revoke payload `MessageRevoked` (send_msg.go, lines 33-44). -/
structure MessageRevoked where
  RevokerID : String
  RevokerRole : Int
  ClientMsgID : String
  RevokerNickname : String
  RevokeTime : Int
  SourceMessageSendTime : Int
  SourceMessageSendID : String
  SourceMessageSenderNickname : String
  SessionType : Int
  Seq : Int
  deriving DecidableEq, Repr

/-- The answer of `rpc.GetSuperGroupMsg`. -/
structure GetSuperGroupMsgResp where
  ErrCode : Int
  ErrMsg : String
  MsgData : Option MsgData

/-- What the collaborators of `messageVerification` answer during one call.  An
`Except String` is a Go pair `(value, err)`, the string being `err.Error()`.
`GetConn k` is the outcome of the `k`-th call of `rpc.GetConn` (the single-chat
branch calls it twice); the cache lookups are keyed by their arguments. -/
structure MsgEnv where
  AppManagerUid : List String
  FriendVerify : Bool
  IsManagerUserID : String → Bool
  GetConn : Nat → Except String Unit
  GetBlackIDListFromCache : String → Except String CacheResp
  GetFriendIDListFromCache : String → Except String CacheResp
  GetGroupMemberUserIDList : String → Except String (List String)
  GetGroupMemberInfoFromCache : String → String → Except String GroupMemberInfo
  GetGroupInfoFromCache : String → Except String GroupInfo
  now : Int
  Wrap : String → String → String
  JsonStringToStruct : String → Except String MessageRevoked
  StructToJsonString : MessageRevoked → String
  GetSuperGroupMsg : String → Int → Except String GetSuperGroupMsgResp

/-- The function `userIsMuteAndIsAdminInGroup` (lines 67-77): `(isMute, isAdmin)`
or the wrapped lookup error. -/
def userIsMuteAndIsAdminInGroup (c : Constants) (env : MsgEnv) (groupID userID : String) :
    Except String (Bool × Bool) :=
  match env.GetGroupMemberInfoFromCache groupID userID with
  | .error err => .error (env.Wrap err "")
  | .ok groupMemberInfo =>
    if groupMemberInfo.MuteEndTime ≥ env.now then
      .ok (true, decide (groupMemberInfo.RoleLevel > c.GroupOrdinaryUsers))
    else
      .ok (false, decide (groupMemberInfo.RoleLevel > c.GroupOrdinaryUsers))

/-- The function `groupIsMuted` (lines 79-88). -/
def groupIsMuted (c : Constants) (env : MsgEnv) (groupID : String) : Except String Bool :=
  match env.GetGroupInfoFromCache groupID with
  | .error err => .error (env.Wrap err "GetGroupInfoFromCache failed")
  | .ok groupInfo =>
    if groupInfo.Status = c.GroupStatusMuted then .ok true else .ok false

/-- The four values `messageVerification` returns: allow flag, code, reason and
member list (the nil slice is `[]`). -/
abbrev Verdict := Bool × Int × String × List String

/-- The `AdvancedRevoke` step of the super-group branch (lines 191-218): either an
early return, or the request to go on with (its content rewritten when the
referenced message was fetched and matches). -/
def advancedRevoke (c : Constants) (env : MsgEnv) (data : SendMsgReq) :
    Except Verdict SendMsgReq :=
  if data.MsgData.ContentType = c.AdvancedRevoke then
    match env.JsonStringToStruct data.MsgData.Content with
    | .error err => .error (false, 201, err, [])
    | .ok revokeMessage =>
      if revokeMessage.RevokerID ≠ revokeMessage.SourceMessageSendID then
        match env.GetSuperGroupMsg data.MsgData.GroupID revokeMessage.Seq with
        | .error _ => .ok data
        | .ok resp =>
          if resp.ErrCode ≠ 0 then .ok data
          else
            match resp.MsgData with
            | none => .error (false, 201, "msg err", [])
            | some m =>
              if m.ClientMsgID = revokeMessage.ClientMsgID ∧ m.Seq = revokeMessage.Seq then
                let revokeMessage := { revokeMessage with
                  SourceMessageSendTime := m.SendTime
                  SourceMessageSenderNickname := m.SenderNickname
                  SourceMessageSendID := m.SendID }
                .ok { data with MsgData := { data.MsgData with
                  Content := env.StructToJsonString revokeMessage } }
              else .error (false, 201, "msg err", [])
      else .ok data
  else .ok data

/-- The function `messageVerification` (lines 90-264).  The result is the
returned tuple together with the request as the call leaves it (the super-group
branch may rewrite `data.MsgData.Content`).  The membership and mute checks are
written out twice, as in the source (lines 148-184 and 222-258). -/
def messageVerification (c : Constants) (env : MsgEnv) (data : SendMsgReq) :
    Verdict × SendMsgReq :=
  if data.MsgData.SessionType = c.SingleChatType then
    if IsContain data.MsgData.SendID env.AppManagerUid then ((true, 0, "", []), data)
    else if data.MsgData.ContentType ≤ c.NotificationEnd ∧
        data.MsgData.ContentType ≥ c.NotificationBegin then ((true, 0, "", []), data)
    else
      match env.GetConn 0 with
      | .error _ => ((true, 0, "", []), data)
      | .ok _ =>
        let friendVerify : Verdict × SendMsgReq :=
          if env.FriendVerify then
            match env.GetConn 1 with
            | .error _ => ((true, 0, "", []), data)
            | .ok _ =>
              match env.GetFriendIDListFromCache data.MsgData.RecvID with
              | .error _ => ((true, 0, "", []), data)
              | .ok cacheResp =>
                if cacheResp.ErrCode ≠ 0 then ((true, 0, "", []), data)
                else if !IsContain data.MsgData.SendID cacheResp.UserIDList then
                  ((false, 601, "not friend", []), data)
                else ((true, 0, "", []), data)
          else ((true, 0, "", []), data)
        match env.GetBlackIDListFromCache data.MsgData.RecvID with
        | .error _ => friendVerify
        | .ok cacheResp =>
          if cacheResp.ErrCode ≠ 0 then friendVerify
          else if IsContain data.MsgData.SendID cacheResp.UserIDList then
            ((false, 600, "in black list", []), data)
          else friendVerify
  else if data.MsgData.SessionType = c.GroupChatType then
    match env.GetGroupMemberUserIDList data.MsgData.GroupID with
    | .error err => ((false, 201, data.OperationID ++ err, []), data)
    | .ok userIDList =>
      if env.IsManagerUserID data.MsgData.SendID then ((true, 0, "", userIDList), data)
      else if data.MsgData.ContentType ≤ c.NotificationEnd ∧
          data.MsgData.ContentType ≥ c.NotificationBegin then ((true, 0, "", userIDList), data)
      else if !IsContain data.MsgData.SendID userIDList then
        ((false, 202, "you are not in group", []), data)
      else
        match userIsMuteAndIsAdminInGroup c env data.MsgData.GroupID data.MsgData.SendID with
        | .error err => ((false, 223, data.OperationID ++ err, []), data)
        | .ok (isMute, isAdmin) =>
          if isMute then ((false, 224, "you are muted", []), data)
          else if isAdmin then ((true, 0, "", userIDList), data)
          else
            match groupIsMuted c env data.MsgData.GroupID with
            | .error err => ((false, 223, data.OperationID ++ err, []), data)
            | .ok isMute =>
              if isMute then ((false, 225, "group id muted", []), data)
              else ((true, 0, "", userIDList), data)
  else if data.MsgData.SessionType = c.SuperGroupChatType then
    match env.GetGroupInfoFromCache data.MsgData.GroupID with
    | .error err => ((false, 201, err, []), data)
    | .ok groupInfo =>
      match advancedRevoke c env data with
      | .error ret => (ret, data)
      | .ok data =>
        if groupInfo.GroupType = c.SuperGroup then ((true, 0, "", []), data)
        else
          match env.GetGroupMemberUserIDList data.MsgData.GroupID with
          | .error err => ((false, 201, data.OperationID ++ err, []), data)
          | .ok userIDList =>
            if env.IsManagerUserID data.MsgData.SendID then ((true, 0, "", userIDList), data)
            else if data.MsgData.ContentType ≤ c.NotificationEnd ∧
                data.MsgData.ContentType ≥ c.NotificationBegin then
              ((true, 0, "", userIDList), data)
            else if !IsContain data.MsgData.SendID userIDList then
              ((false, 202, "you are not in group", []), data)
            else
              match userIsMuteAndIsAdminInGroup c env data.MsgData.GroupID
                  data.MsgData.SendID with
              | .error err => ((false, 223, data.OperationID ++ err, []), data)
              | .ok (isMute, isAdmin) =>
                if isMute then ((false, 224, "you are muted", []), data)
                else if isAdmin then ((true, 0, "", userIDList), data)
                else
                  match groupIsMuted c env data.MsgData.GroupID with
                  | .error err => ((false, 223, data.OperationID ++ err, []), data)
                  | .ok isMute =>
                    if isMute then ((false, 225, "group id muted", []), data)
                    else ((true, 0, "", userIDList), data)
  else ((true, 0, "", []), data)

/-- An environment for examples: one group `g` with members `u1`, `u2`, `u3`, no
manager, every lookup succeeding, the member record and the group record given
as arguments. -/
def sampleEnv (member : GroupMemberInfo) (group : GroupInfo) : MsgEnv where
  AppManagerUid := ["admin"]
  FriendVerify := true
  IsManagerUserID := fun u => u == "admin"
  GetConn := fun _ => .ok ()
  GetBlackIDListFromCache := fun _ => .ok ⟨0, []⟩
  GetFriendIDListFromCache := fun _ => .ok ⟨0, ["u1"]⟩
  GetGroupMemberUserIDList := fun _ => .ok ["u1", "u2", "u3"]
  GetGroupMemberInfoFromCache := fun _ _ => .ok member
  GetGroupInfoFromCache := fun _ => .ok group
  now := 1000
  Wrap := fun err _ => err
  JsonStringToStruct := fun _ => .error "unexpected end of JSON input"
  StructToJsonString := fun _ => ""
  GetSuperGroupMsg := fun _ _ => .error "not found"

/-- A request for examples: sender `u1`, receiver `u2`, group `g`. -/
def sampleReq (sessionType contentType : Int) : SendMsgReq where
  OperationID := "op"
  MsgData :=
    { SendID := "u1", RecvID := "u2", GroupID := "g", ClientMsgID := "c1",
      ServerMsgID := "", SenderNickname := "n1", SessionType := sessionType,
      ContentType := contentType, Content := "", Seq := 0, SendTime := 0,
      Options := some OptionMap.empty, OfflinePushInfo := none }

/-- The example environment with the recipient's blocklist and friendlist given
as arguments (both lookups succeed with error code 0). -/
def sampleSingleEnv (blackList friendList : List String) : MsgEnv :=
  { sampleEnv ⟨0, 1⟩ ⟨0, 0⟩ with
    GetBlackIDListFromCache := fun _ => .ok ⟨0, blackList⟩
    GetFriendIDListFromCache := fun _ => .ok ⟨0, friendList⟩ }

/-- The example request sent by `u9`, who is in no member list of the examples. -/
def sampleOutsiderReq (sessionType contentType : Int) : SendMsgReq :=
  { sampleReq sessionType contentType with
    MsgData := { (sampleReq sessionType contentType).MsgData with SendID := "u9" } }

/-! ## Package `push` (push_to_client.go) -/

/-- An `error` value seen by package `push`: the sentinel
`constant.ErrCallbackContinue`, or any other error with its text. -/
inductive PushError where
  | ErrCallbackContinue
  | other (text : String)
  deriving DecidableEq, Repr

/-- One element of `Resp` in a gateway result record. -/
structure SingleMsgToUserPlatform where
  ResultCode : Int
  RecvPlatFormID : Int
  deriving DecidableEq, Repr

/-- One gateway result record `msggateway.SingleMsgToUserResultList`. -/
structure SingleMsgToUserResultList where
  UserID : String
  Resp : List SingleMsgToUserPlatform
  OnlinePush : Bool
  deriving DecidableEq, Repr

/-- The field `Signal` of the push options. -/
structure Signal where
  ClientMsgID : String
  deriving DecidableEq, Repr

/-- The push options `Opts` handed to the provider. -/
structure Opts where
  Signal : Option Signal
  IOSBadgeCount : Int
  IOSPushSound : String
  Ex : String
  deriving DecidableEq, Repr

/-- The kind of `req.Payload` after `proto.Unmarshal(msg.Content, req)`. -/
inductive SignalPayload where
  | Invite
  | InviteInGroup
  | otherPayload
  deriving DecidableEq, Repr

/-- One gateway replica: the outcome of `SuperGroupOnlineBatchPushOneMsg` for a
message and a recipient list.  `.ok none` is a nil reply, `.ok (some rs)` a reply
whose `SinglePushResult` is `rs`. -/
abbrev Replica := MsgData → List String → Except PushError (Option (List SingleMsgToUserResultList))

/-- What the collaborators of the `Pusher` answer during one call.  A hook with an
out-parameter answers with the value it leaves there (`[]` when it leaves the nil
slice untouched) and its error (`none` is `nil`). -/
structure PushEnv where
  offlinePusherConfigured : Bool
  Push : List String → String → String → Opts → Option PushError
  callbackOnlinePush : List String → MsgData → Option PushError
  callbackBeforeSuperGroupOnlinePush : String → MsgData → List String × Option PushError
  callbackOfflinePush : List String → MsgData → List String × Option PushError
  GetGroupMemberIDs : String → Except PushError (List String)
  GetRecvMsgNotNotifyUserIDs : String → Except PushError (List String)
  HandleSignalInvite : MsgData → String → Except PushError Bool
  GetConns : Except PushError (List Replica)
  Unmarshal : String → Except PushError SignalPayload
  Wrap : PushError → String → PushError
  AtUserList : String → List String
  ContentType2PushContent : Int → String
  PlatformIDToName : Int → String

/-- An outgoing call that a run of the pusher makes, in the order made. -/
inductive Call where
  | onlineBatchPush (replica : Nat) (pushToUserIDs : List String)
  | handleSignalInvite (userID : String)
  | callbackOfflinePush (userIDs : List String)
  | push (userIDs : List String) (title content : String) (opts : Opts)
  | promeInc (success : Bool)
  deriving DecidableEq, Repr

/-- The outcome of `MsgToUser` / `MsgToSuperGroupUser`: the calls made, the value
of `p.successCount` afterwards, and the returned error. -/
structure Run where
  calls : List Call
  successCount : Nat
  err : Option PushError
  deriving DecidableEq, Repr

/-- The recipient lists handed to the offline provider, one per `Push` call. -/
def pushCalls : List Call → List (List String)
  | [] => []
  | Call.push userIDs _ _ _ :: rest => userIDs :: pushCalls rest
  | _ :: rest => pushCalls rest

/-- Modelled from the spec: `utils.DifferenceString(slice1, slice2)`, which is not
part of the sources at hand; the spec reads the two uses as
`recipients \ onlineSet` and as removing the do-not-notify users from the
offline set, that is the elements of `slice2` that are not in `slice1`. -/
def DifferenceString (slice1 slice2 : List String) : List String :=
  slice2.filter fun v => !slice1.contains v

/-- Modelled from the spec: `utils.IntersectString(slice1, slice2)`, which is not
part of the sources at hand; the spec reads the use as
`offlineSet ∩ backgroundWebPcSet`. -/
def IntersectString (slice1 slice2 : List String) : List String :=
  slice2.filter fun v => slice1.contains v

/-- The loop of `GetConnsAndOnlinePush` (lines 171-181) from replica number `i` on:
the calls made and the records appended to `wsResults`. -/
def onlinePushLoop (msg : MsgData) (pushToUserIDs : List String) :
    Nat → List Replica → List Call × List SingleMsgToUserResultList
  | _, [] => ([], [])
  | i, v :: conns =>
    let rest := onlinePushLoop msg pushToUserIDs (i + 1) conns
    match v msg pushToUserIDs with
    | .error _ => (Call.onlineBatchPush i pushToUserIDs :: rest.1, rest.2)
    | .ok none => (Call.onlineBatchPush i pushToUserIDs :: rest.1, rest.2)
    | .ok (some singlePushResult) =>
      (Call.onlineBatchPush i pushToUserIDs :: rest.1, singlePushResult ++ rest.2)

/-- The function `GetConnsAndOnlinePush` (lines 165-183). -/
def GetConnsAndOnlinePush (env : PushEnv) (msg : MsgData) (pushToUserIDs : List String) :
    List Call × Except PushError (List SingleMsgToUserResultList) :=
  match env.GetConns with
  | .error err => ([], .error err)
  | .ok conns =>
    let r := onlinePushLoop msg pushToUserIDs 0 conns
    (r.1, .ok r.2)

/-- The function `GetOfflinePushOpts` (lines 199-217). -/
def GetOfflinePushOpts (c : Constants) (env : PushEnv) (msg : MsgData) : Except PushError Opts :=
  let fill (signal : Option Signal) : Opts :=
    match msg.OfflinePushInfo with
    | some info => ⟨signal, info.IOSBadgeCount, info.IOSPushSound, info.Ex⟩
    | none => ⟨signal, 0, "", ""⟩
  if msg.ContentType > c.SignalingNotificationBegin ∧
      msg.ContentType < c.SignalingNotificationEnd then
    match env.Unmarshal msg.Content with
    | .error err => .error (env.Wrap err "")
    | .ok SignalPayload.Invite => .ok (fill (some ⟨msg.ClientMsgID⟩))
    | .ok SignalPayload.InviteInGroup => .ok (fill (some ⟨msg.ClientMsgID⟩))
    | .ok SignalPayload.otherPayload => .ok (fill none)
  else .ok (fill none)

/-- The title derived from the content type when none is provided (the `switch`
of `getOfflinePushInfos`, lines 238-261). -/
def derivedTitle (c : Constants) (env : PushEnv) (sourceID : String) (msg : MsgData) : String :=
  if msg.ContentType ∈ [c.Text, c.Picture, c.Voice, c.Video, c.File] then
    env.ContentType2PushContent msg.ContentType
  else if msg.ContentType = c.AtText then
    if IsContain sourceID (env.AtUserList msg.Content) then
      env.ContentType2PushContent c.AtText ++ env.ContentType2PushContent c.Common
    else env.ContentType2PushContent c.GroupMsg
  else if msg.ContentType = c.SignalingNotification then
    env.ContentType2PushContent c.SignalMsg
  else env.ContentType2PushContent c.Common

/-- The function `getOfflinePushInfos` (lines 219-267): `(title, content, opts)`
or the error. -/
def getOfflinePushInfos (c : Constants) (env : PushEnv) (sourceID : String) (msg : MsgData) :
    Except PushError (String × String × Opts) :=
  if !env.offlinePusherConfigured then
    .error (PushError.other "no offlinePusher is configured")
  else
    match GetOfflinePushOpts c env msg with
    | .error err => .error err
    | .ok opts =>
      let title := match msg.OfflinePushInfo with
        | some info => info.Title
        | none => ""
      let content := match msg.OfflinePushInfo with
        | some info => info.Desc
        | none => ""
      let title := if title = "" then derivedTitle c env sourceID msg else title
      let content := if content = "" then title else content
      .ok (title, content, opts)

/-- The function `offlinePushMsg` (lines 185-197): the calls made and the
returned error. -/
def offlinePushMsg (c : Constants) (env : PushEnv) (sourceID : String) (msg : MsgData)
    (offlinePushUserIDs : List String) : List Call × Option PushError :=
  match getOfflinePushInfos c env sourceID msg with
  | .error err => ([], some err)
  | .ok (title, content, opts) =>
    match env.Push offlinePushUserIDs title content opts with
    | some err =>
      ([Call.push offlinePushUserIDs title content opts, Call.promeInc false], some err)
    | none =>
      ([Call.push offlinePushUserIDs title content opts, Call.promeInc true], none)

/-- The function `MsgToUser` (lines 46-88). -/
def MsgToUser (c : Constants) (env : PushEnv) (successCount : Nat) (userID : String)
    (msg : MsgData) : Run :=
  let userIDs := [userID]
  match env.callbackOnlinePush userIDs msg with
  | some (PushError.other text) => ⟨[], successCount, some (PushError.other text)⟩
  | _ =>
    match GetConnsAndOnlinePush env msg userIDs with
    | (calls, .error err) => ⟨calls, successCount, some err⟩
    | (calls, .ok wsResults) =>
      let isOfflinePush := GetSwitchFromOptions msg.Options c.IsOfflinePush
      let successCount := successCount + 1
      if isOfflinePush && userID != msg.SendID then
        if wsResults.any (fun v => v.OnlinePush) then ⟨calls, successCount, none⟩
        else
          let offline (calls : List Call) : Run :=
            match env.callbackOfflinePush userIDs msg with
            | (_, some err) =>
              ⟨calls ++ [Call.callbackOfflinePush userIDs], successCount, some err⟩
            | (_, none) =>
              let r := offlinePushMsg c env userID msg userIDs
              ⟨calls ++ [Call.callbackOfflinePush userIDs] ++ r.1, successCount, r.2⟩
          if msg.ContentType = c.SignalingNotification then
            match env.HandleSignalInvite msg userID with
            | .error err => ⟨calls ++ [Call.handleSignalInvite userID], successCount, some err⟩
            | .ok isSend =>
              if !isSend then ⟨calls ++ [Call.handleSignalInvite userID], successCount, none⟩
              else offline (calls ++ [Call.handleSignalInvite userID])
          else offline calls
      else ⟨calls, successCount, none⟩

/-- The list `onlineSuccessUserIDs` after the loop over `wsResults` (lines
113-117): the sender, then every record's user that is online and not the
sender. -/
def onlineSuccessUserIDs (sendID : String) (wsResults : List SingleMsgToUserResultList) :
    List String :=
  sendID :: (wsResults.filter fun v => v.OnlinePush && v.UserID != sendID).map fun v => v.UserID

/-- The list `WebAndPcBackgroundUserIDs` after the loop over `wsResults` (lines
118-129): one entry per sub-result with code `-2` on the PC terminal or on the
web platform, of a record that is not online. -/
def WebAndPcBackgroundUserIDs (c : Constants) (env : PushEnv)
    (wsResults : List SingleMsgToUserResultList) : List String :=
  wsResults.flatMap fun v =>
    if !v.OnlinePush then
      (v.Resp.filter fun singleResult =>
        singleResult.ResultCode == -2 &&
          (env.PlatformIDToName singleResult.RecvPlatFormID == c.TerminalPC ||
            singleResult.RecvPlatFormID == c.WebPlatformID)).map fun _ => v.UserID
    else []

/-- The list `needOfflinePushUserIDs` as line 141 reads it, or the error of the
do-not-notify lookup (lines 131-139). -/
def needOfflinePushUserIDs (c : Constants) (env : PushEnv) (groupID : String) (msg : MsgData)
    (pushToUserIDs : List String) (wsResults : List SingleMsgToUserResultList) :
    Except PushError (List String) :=
  let need := DifferenceString (onlineSuccessUserIDs msg.SendID wsResults) pushToUserIDs
  if msg.ContentType ≠ c.SignalingNotification then
    match env.GetRecvMsgNotNotifyUserIDs groupID with
    | .error err => .error err
    | .ok notNotificationUserIDs => .ok (DifferenceString notNotificationUserIDs need)
  else .ok need

/-- The block of `MsgToSuperGroupUser` guarded by `if isOfflinePush` (lines
110-161), for the recipient list and the gateway records at hand: the calls made
and the error returned from the block (`none` when the block runs to its end). -/
def superGroupOfflinePush (c : Constants) (env : PushEnv) (groupID : String) (msg : MsgData)
    (pushToUserIDs : List String) (wsResults : List SingleMsgToUserResultList) :
    List Call × Option PushError :=
  match needOfflinePushUserIDs c env groupID msg pushToUserIDs wsResults with
  | .error err => ([], some err)
  | .ok need =>
    if need.length > 0 then
      match env.callbackOfflinePush need msg with
      | (_, some err) => ([Call.callbackOfflinePush need], some err)
      | (offlinePushUserIDs, none) =>
        let need2 := if offlinePushUserIDs.length > 0 then offlinePushUserIDs else need
        let r := offlinePushMsg c env groupID msg offlinePushUserIDs
        match r.2 with
        | some err => (Call.callbackOfflinePush need :: r.1, some err)
        | none =>
          let w := GetConnsAndOnlinePush env msg
            (IntersectString need2 (WebAndPcBackgroundUserIDs c env wsResults))
          match w.2 with
          | .error err => (Call.callbackOfflinePush need :: (r.1 ++ w.1), some err)
          | .ok _ => (Call.callbackOfflinePush need :: (r.1 ++ w.1), none)
    else ([], none)

/-- The recipient list of `MsgToSuperGroupUser` (lines 93-102): the list the
online-before hook left in `pushToUserIDs` or, when that is empty, the members of
the group from the local cache. -/
def superGroupPushToUserIDs (env : PushEnv) (groupID : String) (hookUserIDs : List String) :
    Except PushError (List String) :=
  if hookUserIDs.length = 0 then env.GetGroupMemberIDs groupID else .ok hookUserIDs

/-- The function `MsgToSuperGroupUser` (lines 90-163). -/
def MsgToSuperGroupUser (c : Constants) (env : PushEnv) (successCount : Nat) (groupID : String)
    (msg : MsgData) : Run :=
  match env.callbackBeforeSuperGroupOnlinePush groupID msg with
  | (_, some (PushError.other text)) => ⟨[], successCount, some (PushError.other text)⟩
  | (hookUserIDs, _) =>
    match superGroupPushToUserIDs env groupID hookUserIDs with
    | .error err => ⟨[], successCount, some err⟩
    | .ok pushToUserIDs =>
      match GetConnsAndOnlinePush env msg pushToUserIDs with
      | (calls, .error err) => ⟨calls, successCount, some err⟩
      | (calls, .ok wsResults) =>
        let successCount := successCount + 1
        let isOfflinePush := GetSwitchFromOptions msg.Options c.IsOfflinePush
        if isOfflinePush then
          let r := superGroupOfflinePush c env groupID msg pushToUserIDs wsResults
          ⟨calls ++ r.1, successCount, r.2⟩
        else ⟨calls, successCount, none⟩

/-- A gateway replica for examples: `u2` is reached online, `u3` is not. -/
def sampleReplica : Replica := fun _ _ =>
  .ok (some [⟨"u2", [], true⟩, ⟨"u3", [], false⟩])

/-- A pusher environment for examples: group members `u1`, `u2`, `u3`, one gateway
replica, no hook configured (every hook answers `nil` and leaves its
out-parameter untouched), nobody on do-not-notify, a provider that succeeds. -/
def samplePushEnv : PushEnv where
  offlinePusherConfigured := true
  Push := fun _ _ _ _ => none
  callbackOnlinePush := fun _ _ => none
  callbackBeforeSuperGroupOnlinePush := fun _ _ => ([], none)
  callbackOfflinePush := fun _ _ => ([], none)
  GetGroupMemberIDs := fun _ => .ok ["u1", "u2", "u3"]
  GetRecvMsgNotNotifyUserIDs := fun _ => .ok []
  HandleSignalInvite := fun _ _ => .ok true
  GetConns := .ok [sampleReplica]
  Unmarshal := fun _ => .ok SignalPayload.otherPayload
  Wrap := fun err _ => err
  AtUserList := fun _ => []
  ContentType2PushContent := fun k => if k = 102 then "[Picture]" else "[Msg]"
  PlatformIDToName := fun k => if k = 3 then "PC" else "Mobile"

/-- The example message with `IsOfflinePush = false` in its option map. -/
def sampleMsgOfflineOff (c : Constants) (contentType : Int) : MsgData :=
  { sampleMsg c contentType with Options := some (OptionMap.empty.insert c.IsOfflinePush false) }

/-- The example pusher environment with a single gateway replica that reports
`u3` as not reached online. -/
def sampleOfflineEnv : PushEnv :=
  { samplePushEnv with GetConns := .ok [fun _ _ => .ok (some [⟨"u3", [], false⟩])] }

/-! ## Receive preferences and group fan-out (send_msg.go, lines 317-406) -/

/-- An `error` of the preference store: the sentinel `go_redis.Nil` ("not
found"), or any other error with its text. -/
inductive StoreError where
  | Nil
  | other (text : String)
  deriving DecidableEq, Repr

/-- Modelled from the spec: `utils.IsContainInt(target, list)`, which is not part
of the sources at hand; the spec reads it as membership
(`content type ∈ {HasReadReceipt, GroupHasReadReceipt}`). -/
def IsContainInt (target : Int) (list : List Int) : Bool :=
  list.contains target

/-- What the collaborators of the receive-preference resolver and of the group
fan-out answer.  A lookup answers with the Go pair `(value, err)`, `none` being
the nil error; `MsgToMQ` answers with its error. -/
structure RecvEnv where
  GetUserGlobalMsgRecvOpt : String → Int × Option StoreError
  GetSingleConversationRecvMsgOpt : String → String → Int × Option StoreError
  GetConversationIDBySessionType : String → Int → String
  MsgToMQ : String → MsgData → Option String

/-- The labels of the two `switch` statements over a receive option are pairwise
different constants. -/
def Constants.RecvOptLabelsDistinct (c : Constants) : Prop :=
  [c.ReceiveMessage, c.NotReceiveMessage, c.ReceiveNotNotifyMessage].Nodup

instance (c : Constants) : Decidable c.RecvOptLabelsDistinct := by
  unfold Constants.RecvOptLabelsDistinct; infer_instance

/-- The body of a `case constant.ReceiveNotNotifyMessage` (lines 327-330 and
348-351): make the option map if it is nil, then switch `IsOfflinePush` off. -/
def forceOfflinePushOff (c : Constants) (pb : SendMsgReq) : SendMsgReq :=
  let options : Option OptionMap :=
    match pb.MsgData.Options with
    | none => some OptionMap.empty
    | some m => some m
  { pb with MsgData := { pb.MsgData with
      Options := SetSwitchFromOptions options c.IsOfflinePush false } }

/-- The function `modifyMessageByUserMessageReceiveOpt` (lines 317-356): the
returned pair `(isSend, err)` and the request as the call leaves it.  A `return`
with the flag alone returns the nil error. -/
def modifyMessageByUserMessageReceiveOpt (c : Constants) (env : RecvEnv)
    (userID sourceID : String) (sessionType : Int) (pb : SendMsgReq) :
    (Bool × Option StoreError) × SendMsgReq :=
  match env.GetUserGlobalMsgRecvOpt userID with
  | (_, some err) => ((false, some err), pb)
  | (opt, none) =>
    let perConversation : (Bool × Option StoreError) × SendMsgReq :=
      let conversationID := env.GetConversationIDBySessionType sourceID sessionType
      match env.GetSingleConversationRecvMsgOpt userID conversationID with
      | (_, some (StoreError.other _)) => ((true, none), pb)
      | (singleOpt, _) =>
        if singleOpt = c.ReceiveMessage then ((true, none), pb)
        else if singleOpt = c.NotReceiveMessage then
          if IsContainInt pb.MsgData.ContentType (ExcludeContentType c) then ((true, none), pb)
          else ((false, none), pb)
        else if singleOpt = c.ReceiveNotNotifyMessage then
          ((true, none), forceOfflinePushOff c pb)
        else ((true, none), pb)
    if opt = c.ReceiveMessage then perConversation
    else if opt = c.NotReceiveMessage then ((false, none), pb)
    else if opt = c.ReceiveNotNotifyMessage then ((true, none), forceOfflinePushOff c pb)
    else perConversation

/-- An error returned by `sendMsgToGroupOptimization`: the error of the
resolver, `constant.ErrArgs` wrapped with a text, or the error of `MsgToMQ`. -/
inductive SendError where
  | store (err : StoreError)
  | ErrArgs (text : String)
  | mq (text : String)
  deriving DecidableEq, Repr

/-- The outcome of `sendMsgToGroupOptimization`: the `MsgToMQ` calls in order
(key and message as it is at the call), whether `wg.Done()` was called, the
returned error, and the request as the call leaves it. -/
structure GroupSend where
  sent : List (String × MsgData)
  wgDone : Bool
  err : Option SendError
  groupPB : SendMsgReq

/-- The head of the loop body (lines 382-387): the receiver is set to `v` and the
option map to a fresh copy of `tempOptions`. -/
def withRecipient (groupPB : SendMsgReq) (v : String) (tempOptions : OptionMap) : SendMsgReq :=
  { groupPB with MsgData := { groupPB.MsgData with RecvID := v, Options := some tempOptions } }

/-- The loop `for _, v := range list` of `sendMsgToGroupOptimization` (lines
381-403) together with the final `wg.Done()`; `tempOptions` is the copy of the
option map taken before the loop. -/
def sendLoop (c : Constants) (env : RecvEnv) (tempOptions : OptionMap) :
    List String → SendMsgReq → GroupSend
  | [], groupPB => ⟨[], true, none, groupPB⟩
  | v :: list, groupPB =>
    let groupPB : SendMsgReq := withRecipient groupPB v tempOptions
    match modifyMessageByUserMessageReceiveOpt c env v groupPB.MsgData.GroupID
        c.GroupChatType groupPB with
    | ((_, some err), groupPB) => ⟨[], true, some (SendError.store err), groupPB⟩
    | ((isSend, none), groupPB) =>
      if isSend then
        if v = "" ∨ groupPB.MsgData.SendID = "" then
          ⟨[], false,
            some (SendError.ErrArgs "userID or groupPB.MsgData.SendID is empty"), groupPB⟩
        else
          match env.MsgToMQ v groupPB.MsgData with
          | some err => ⟨[(v, groupPB.MsgData)], true, some (SendError.mq err), groupPB⟩
          | none =>
            let r := sendLoop c env tempOptions list groupPB
            ⟨(v, groupPB.MsgData) :: r.sent, r.wgDone, r.err, r.groupPB⟩
      else sendLoop c env tempOptions list groupPB

/-- The copy `tempOptions` of the option map of the request (lines 377-380);
ranging over a nil map copies nothing. -/
def tempOptionsOf (groupPB : SendMsgReq) : OptionMap :=
  match groupPB.MsgData.Options with
  | none => OptionMap.empty
  | some m => m

/-- The function `sendMsgToGroupOptimization` (lines 375-406). -/
def sendMsgToGroupOptimization (c : Constants) (env : RecvEnv) (list : List String)
    (groupPB : SendMsgReq) : GroupSend :=
  sendLoop c env (tempOptionsOf groupPB) list groupPB

/-- The condition under which `modifyMessageByUserMessageReceiveOpt` reaches one
of its two `case constant.ReceiveNotNotifyMessage` bodies for `userID`: the
global option is `ReceiveNotNotifyMessage`, or the global option passes on to the
per-conversation option, which is read without an error other than
`go_redis.Nil` and is `ReceiveNotNotifyMessage`. -/
def reachesNotNotify (c : Constants) (env : RecvEnv) (userID sourceID : String)
    (sessionType : Int) : Prop :=
  (env.GetUserGlobalMsgRecvOpt userID).2 = none ∧
  ((env.GetUserGlobalMsgRecvOpt userID).1 = c.ReceiveNotNotifyMessage ∨
    ((env.GetUserGlobalMsgRecvOpt userID).1 ≠ c.NotReceiveMessage ∧
      (∀ text, (env.GetSingleConversationRecvMsgOpt userID
        (env.GetConversationIDBySessionType sourceID sessionType)).2 ≠
          some (StoreError.other text)) ∧
      (env.GetSingleConversationRecvMsgOpt userID
        (env.GetConversationIDBySessionType sourceID sessionType)).1 =
          c.ReceiveNotNotifyMessage))

/-- The effective preference as the decision matrix of the spec (section 4.B)
reads it: the per-conversation preference when it is set, and the global
preference when the per-conversation one is unset (`go_redis.Nil`).  It is the
spec-side notion that the resolver is compared with; `none` when a lookup fails
otherwise. -/
def specEffectivePreference (env : RecvEnv) (userID sourceID : String) (sessionType : Int) :
    Option Int :=
  match env.GetSingleConversationRecvMsgOpt userID
      (env.GetConversationIDBySessionType sourceID sessionType) with
  | (singleOpt, none) => some singleOpt
  | (_, some StoreError.Nil) =>
    match env.GetUserGlobalMsgRecvOpt userID with
    | (opt, none) => some opt
    | (_, some _) => none
  | (_, some (StoreError.other _)) => none

/-- A preference store for examples: the global option and the per-conversation
answer are the same for every user; `MsgToMQ` succeeds. -/
def sampleRecvEnv (globalOpt : Int × Option StoreError)
    (singleOpt : Int × Option StoreError) : RecvEnv where
  GetUserGlobalMsgRecvOpt := fun _ => globalOpt
  GetSingleConversationRecvMsgOpt := fun _ _ => singleOpt
  GetConversationIDBySessionType := fun sourceID _ => "group_" ++ sourceID
  MsgToMQ := fun _ _ => none

/-- The keys of a list of `MsgToMQ` calls with the value each dispatched option map
holds for `key`. -/
def sentFlags (key : String) (sent : List (String × MsgData)) :
    List (String × Option (Option Bool)) :=
  sent.map fun p => (p.1, p.2.Options.map fun m => m key)

/-- A revoke payload for examples: `u1` revokes the message with client id `c9` and
sequence number 5, which the payload attributes to `u7`. -/
def sampleRevoke : MessageRevoked where
  RevokerID := "u1"
  RevokerRole := 3
  ClientMsgID := "c9"
  RevokerNickname := "n1"
  RevokeTime := 50
  SourceMessageSendTime := 0
  SourceMessageSendID := "u7"
  SourceMessageSenderNickname := "n7"
  SessionType := 3
  Seq := 5

/-- The example environment for an `AdvancedRevoke`: the payload decodes to
`sampleRevoke`, the message store answers with the message given as argument, and
a payload is rendered as its client id, source sender and source nickname. -/
def sampleRevokeEnv (original : Option MsgData) : MsgEnv :=
  { sampleEnv ⟨0, 1⟩ ⟨0, 2⟩ with
    JsonStringToStruct := fun _ => .ok sampleRevoke
    StructToJsonString := fun r =>
      r.ClientMsgID ++ "/" ++ r.SourceMessageSendID ++ "/" ++ r.SourceMessageSenderNickname
    GetSuperGroupMsg := fun _ _ => .ok ⟨0, "", original⟩ }

/-- A stored message for examples, sent by `u3` with the given client id and
sequence number. -/
def sampleStored (clientMsgID : String) (seq : Int) : MsgData :=
  { (sampleReq 3 101).MsgData with
    SendID := "u3", SenderNickname := "n3", ClientMsgID := clientMsgID, Seq := seq,
    SendTime := 77 }

/-- The example pusher environment of `sampleOfflineEnv` with the errors that the
three hooks return given as arguments. -/
def sampleHookEnv (onlineSingle : Option PushError) (onlineSuperGroup : Option PushError)
    (offline : Option PushError) : PushEnv :=
  { sampleOfflineEnv with
    callbackOnlinePush := fun _ _ => onlineSingle
    callbackBeforeSuperGroupOnlinePush := fun _ _ => ([], onlineSuperGroup)
    callbackOfflinePush := fun _ _ => ([], offline) }

/-- The records one replica adds to `wsResults` in the loop of
`GetConnsAndOnlinePush` (lines 173-180): the `SinglePushResult` of its reply, and
nothing when the call fails or the reply is nil. -/
def replicaRecords (msg : MsgData) (pushToUserIDs : List String) (v : Replica) :
    List SingleMsgToUserResultList :=
  match v msg pushToUserIDs with
  | .ok (some singlePushResult) => singlePushResult
  | _ => []

/-- The labels of the `switch msg.ContentType` in `getOfflinePushInfos` (lines
238-261) are pairwise different constants. -/
def Constants.TitleLabelsDistinct (c : Constants) : Prop :=
  [c.Text, c.Picture, c.Voice, c.Video, c.File, c.AtText, c.SignalingNotification].Nodup

instance (c : Constants) : Decidable c.TitleLabelsDistinct := by
  unfold Constants.TitleLabelsDistinct; infer_instance

/-- The example pusher environment with a single gateway replica that reports `u2`
as not reached, with result code -2 on the web platform (scenario S5). -/
def sampleBackgroundEnv : PushEnv :=
  { samplePushEnv with
    GetGroupMemberIDs := fun _ => .ok ["u1", "u2"]
    GetConns := .ok [fun _ _ => .ok (some [⟨"u2", [⟨-2, 5⟩], false⟩])] }

/-- The example pusher environment with three gateway replicas: the first reports
`u2` online, the call to the second fails, the third reports `u2` not reached. -/
def sampleThreeReplicaEnv : PushEnv :=
  { samplePushEnv with
    GetConns := .ok [fun _ _ => .ok (some [⟨"u2", [], true⟩]),
      fun _ _ => .error (PushError.other "unavailable"),
      fun _ _ => .ok (some [⟨"u2", [], false⟩])] }

/-- The example message with an offline-push hint of the given title and
description. -/
def sampleMsgWithInfo (c : Constants) (contentType : Int) (title desc : String) : MsgData :=
  { sampleMsg c contentType with OfflinePushInfo := some ⟨title, desc, "", "", 0⟩ }

deriving instance DecidableEq for Except

/-- A content that is not a serialised `SignalReq`: its first byte `n` (0x6E) is a
tag with wire type 6, which the protobuf wire format does not have. -/
def sampleUndecodableContent : String := "not a SignalReq"

/-- The example pusher environment with a decoder for the contents that the
examples use: `sampleUndecodableContent` fails to decode, and the empty content
decodes to a request without payload, as does any other content here. -/
def sampleSignalDecodeEnv : PushEnv :=
  { samplePushEnv with
    Unmarshal := fun content =>
      if content = sampleUndecodableContent then
        .error (PushError.other "proto: cannot parse invalid wire-format data")
      else .ok SignalPayload.otherPayload }

/-- A signaling notification for examples that provides the title "Hello" and the
body "World" and whose content is `sampleUndecodableContent`. -/
def sampleUndecodableSignal (c : Constants) : MsgData :=
  { sampleMsgWithInfo c c.SignalingNotification "Hello" "World" with
    Content := sampleUndecodableContent }

/-- Modelled from the spec: the table `constant.ContentType2PushContent` is not part
of the sources at hand and is a parameter of the environment; the spec has it
hold a display string for what `getOfflinePushInfos` looks up (`[Picture]` and
its like for the content types with an entry of their own, the at-text string,
the group-message default, the signal string and the common default), so each
of these entries is not empty. -/
def PushEnv.TableHasEntries (env : PushEnv) (c : Constants) : Prop :=
  ∀ k ∈ [c.Text, c.Picture, c.Voice, c.Video, c.File, c.AtText, c.Common, c.GroupMsg,
    c.SignalMsg], env.ContentType2PushContent k ≠ ""

instance (env : PushEnv) (c : Constants) : Decidable (env.TableHasEntries c) := by
  unfold PushEnv.TableHasEntries; infer_instance

/-- The title that the message provides (lines 233-235): `OfflinePushInfo.Title`, or
the empty string when there is no hint. -/
def providedTitle (msg : MsgData) : String :=
  match msg.OfflinePushInfo with
  | some info => info.Title
  | none => ""

/-- The body that the message provides (lines 233-236): `OfflinePushInfo.Desc`, or
the empty string when there is no hint. -/
def providedDesc (msg : MsgData) : String :=
  match msg.OfflinePushInfo with
  | some info => info.Desc
  | none => ""

/-- A preference store for examples in which reading the global option fails for
`u3` alone; every other user has the global option `ReceiveMessage` (0) and no
per-conversation option. -/
def sampleOneFailingRecvEnv : RecvEnv :=
  { sampleRecvEnv (0, none) (0, some StoreError.Nil) with
    GetUserGlobalMsgRecvOpt := fun u =>
      if u = "u3" then (0, some (StoreError.other "timeout")) else (0, none) }

/-! ## Theorems -/

/-- Unfolds the option map of a normalised message whose map is present, when
the content type is one of the labels that fall through to `Quote`. -/
theorem encapsulateMsgData_ordinary (c : Constants) (serverMsgID : String) (sendTime : Int)
    (msg : MsgData) (h : msg.ContentType ∈ c.ordinaryLabels) :
    (encapsulateMsgData c serverMsgID sendTime msg).Options =
      SetSwitchFromOptions (SetSwitchFromOptions (SetSwitchFromOptions msg.Options
        c.IsConversationUpdate true) c.IsUnreadCount true) c.IsSenderSync true := by
  simp [encapsulateMsgData, h]

/-- The three labels after `Quote` are not among the labels that fall through to
`Quote`, and are pairwise different. -/
theorem Constants.SwitchLabelsDistinct.tail (c : Constants) (hd : c.SwitchLabelsDistinct) :
    c.Revoke ∉ c.ordinaryLabels ∧ c.HasReadReceipt ∉ c.ordinaryLabels ∧
      c.Typing ∉ c.ordinaryLabels ∧ c.Revoke ≠ c.HasReadReceipt ∧ c.Revoke ≠ c.Typing ∧
      c.HasReadReceipt ≠ c.Typing := by
  unfold Constants.SwitchLabelsDistinct Constants.switchLabels at hd
  rw [List.nodup_append] at hd
  obtain ⟨-, h2, h3⟩ := hd
  have hdis : ∀ x, x ∈ [c.Revoke, c.HasReadReceipt, c.Typing] → x ∉ c.ordinaryLabels :=
    fun x hx hmem => h3 hmem hx
  refine ⟨hdis _ (by simp), hdis _ (by simp), hdis _ (by simp), ?_, ?_, ?_⟩ <;>
    · intro h
      simp [h] at h2

/-- A content type that matches no label of the `switch` leaves the option map
as it is. -/
theorem encapsulateMsgData_no_label (c : Constants) (serverMsgID : String) (sendTime : Int)
    (msg : MsgData) (h : msg.ContentType ∉ c.switchLabels) :
    (encapsulateMsgData c serverMsgID sendTime msg).Options = msg.Options := by
  have h1 : msg.ContentType ∉ c.ordinaryLabels := fun hmem =>
    h (by simp [Constants.switchLabels, hmem])
  have h2 : msg.ContentType ≠ c.Revoke := fun he => h (by simp [Constants.switchLabels, he])
  have h3 : msg.ContentType ≠ c.HasReadReceipt := fun he =>
    h (by simp [Constants.switchLabels, he])
  have h4 : msg.ContentType ≠ c.Typing := fun he => h (by simp [Constants.switchLabels, he])
  simp only [encapsulateMsgData, h1, h2, h3, h4, if_false]

/-- C3: for a message whose option map is present, `encapsulateMsgData` leaves the
map equal to the input map overridden with the forced values of the row of its
content type: ordinary content forces `IsConversationUpdate`, `IsUnreadCount`,
`IsSenderSync` to true; `Revoke` forces `IsUnreadCount`, `IsOfflinePush` to
false; `Typing` forces the seven listed keys to false; every other key keeps its
value, and a content type in none of the rows leaves the map unchanged. -/
theorem encapsulateMsgData_options_table (c : Constants) (serverMsgID : String)
    (sendTime : Int) (msg : MsgData) (m : OptionMap)
    (hd : c.SwitchLabelsDistinct) (hm : msg.Options = some m) :
    (msg.ContentType ∈ c.ordinaryLabels →
      (encapsulateMsgData c serverMsgID sendTime msg).Options =
        some (m.override [c.IsConversationUpdate, c.IsUnreadCount, c.IsSenderSync] true)) ∧
    (msg.ContentType = c.Revoke →
      (encapsulateMsgData c serverMsgID sendTime msg).Options =
        some (m.override [c.IsUnreadCount, c.IsOfflinePush] false)) ∧
    (msg.ContentType = c.Typing →
      (encapsulateMsgData c serverMsgID sendTime msg).Options =
        some (m.override [c.IsHistory, c.IsPersistent, c.IsSenderSync, c.IsConversationUpdate,
          c.IsSenderConversationUpdate, c.IsUnreadCount, c.IsOfflinePush] false)) ∧
    (msg.ContentType ∉ c.switchLabels → msg.ContentType ∉ ExcludeContentType c →
      (encapsulateMsgData c serverMsgID sendTime msg).Options = some m) := by
  obtain ⟨hr, -, ht, -, hrt, hht⟩ := Constants.SwitchLabelsDistinct.tail c hd
  refine ⟨?_, ?_, ?_, ?_⟩
  · intro h
    rw [encapsulateMsgData_ordinary c serverMsgID sendTime msg h, hm]
    simp only [SetSwitchFromOptions, Option.map_some']
    congr 1
    funext k
    simp only [OptionMap.insert, OptionMap.override, List.mem_cons, List.mem_singleton,
      List.not_mem_nil, or_false]
    split_ifs <;> simp_all
  · intro h
    simp only [encapsulateMsgData, h, hr, if_false, if_true, hm, SetSwitchFromOptions,
      Option.map_some']
    congr 1
    funext k
    simp only [OptionMap.insert, OptionMap.override, List.mem_cons, List.mem_singleton,
      List.not_mem_nil, or_false]
    split_ifs <;> simp_all
  · intro h
    simp only [encapsulateMsgData, h, ht, if_false, if_true, hm, SetSwitchFromOptions,
      Option.map_some', Ne.symm hrt, Ne.symm hht]
    congr 1
    funext k
    simp only [OptionMap.insert, OptionMap.override, List.mem_cons, List.mem_singleton,
      List.not_mem_nil, or_false]
    split_ifs <;> simp_all
  · intro h _
    rw [encapsulateMsgData_no_label c serverMsgID sendTime msg h, hm]

/-- Witness of `encapsulateMsgData_options_table`: a `Revoke` message with an empty
option map. -/
theorem encapsulateMsgData_options_table_witness :
    sampleConstants.SwitchLabelsDistinct ∧
    (sampleMsg sampleConstants 111).Options = some OptionMap.empty ∧
    (encapsulateMsgData sampleConstants "s" 5 (sampleMsg sampleConstants 111)).Options =
      some (OptionMap.empty.override ["unreadCount", "offlinePush"] false) :=
  ⟨by decide, rfl,
    (encapsulateMsgData_options_table sampleConstants "s" 5 (sampleMsg sampleConstants 111)
      OptionMap.empty (by decide) rfl).2.1 rfl⟩

/-- C4 (the code at the failing input): a `GroupHasReadReceipt` message whose
option map holds `true` for `IsConversationUpdate`, `IsSenderConversationUpdate`,
`IsUnreadCount` and `IsOfflinePush` still holds `true` for all four after
`encapsulateMsgData`, whereas a `HasReadReceipt` message has all four forced to
`false`. -/
theorem encapsulateMsgData_groupHasReadReceipt_not_forced :
    ((encapsulateMsgData sampleConstants "s" 5
        (sampleMsgAllOn sampleConstants sampleConstants.GroupHasReadReceipt)).Options.map
      fun m => [m sampleConstants.IsConversationUpdate,
        m sampleConstants.IsSenderConversationUpdate, m sampleConstants.IsUnreadCount,
        m sampleConstants.IsOfflinePush]) = some [some true, some true, some true, some true] ∧
    ((encapsulateMsgData sampleConstants "s" 5
        (sampleMsgAllOn sampleConstants sampleConstants.HasReadReceipt)).Options.map
      fun m => [m sampleConstants.IsConversationUpdate,
        m sampleConstants.IsSenderConversationUpdate, m sampleConstants.IsUnreadCount,
        m sampleConstants.IsOfflinePush]) =
      some [some false, some false, some false, some false] := by
  constructor <;> decide

/-- The helper `IsContain` decides membership. -/
theorem IsContain_iff (target : String) (list : List String) :
    IsContain target list = true ↔ target ∈ list := by
  simp [IsContain]

/-- The group label of the session `switch` differs from the single label. -/
theorem Constants.SessionLabelsDistinct.group_ne_single (c : Constants)
    (hd : c.SessionLabelsDistinct) : c.GroupChatType ≠ c.SingleChatType := by
  intro h
  simp [Constants.SessionLabelsDistinct, h] at hd

/-- The super-group label of the session `switch` differs from the two labels
before it. -/
theorem Constants.SessionLabelsDistinct.super_ne (c : Constants)
    (hd : c.SessionLabelsDistinct) :
    c.SuperGroupChatType ≠ c.SingleChatType ∧ c.SuperGroupChatType ≠ c.GroupChatType := by
  constructor <;>
    · intro h
      simp [Constants.SessionLabelsDistinct, h] at hd

/-- The classic-group branch once the member list is known and the sender is a
member that is neither the manager nor sending notification-band content: what
is left is the mute ladder (lines 165-184). -/
theorem messageVerification_group_member (c : Constants) (env : MsgEnv) (data : SendMsgReq)
    (userIDList : List String) (hd : c.SessionLabelsDistinct)
    (hs : data.MsgData.SessionType = c.GroupChatType)
    (hl : env.GetGroupMemberUserIDList data.MsgData.GroupID = .ok userIDList)
    (hmgr : env.IsManagerUserID data.MsgData.SendID = false)
    (hband : ¬(data.MsgData.ContentType ≤ c.NotificationEnd ∧
      data.MsgData.ContentType ≥ c.NotificationBegin))
    (hmem : data.MsgData.SendID ∈ userIDList) :
    (messageVerification c env data).1 =
      match userIsMuteAndIsAdminInGroup c env data.MsgData.GroupID data.MsgData.SendID with
      | .error err => (false, 223, data.OperationID ++ err, [])
      | .ok (isMute, isAdmin) =>
        if isMute then (false, 224, "you are muted", [])
        else if isAdmin then (true, 0, "", userIDList)
        else
          match groupIsMuted c env data.MsgData.GroupID with
          | .error err => (false, 223, data.OperationID ++ err, [])
          | .ok isMute =>
            if isMute then (false, 225, "group id muted", [])
            else (true, 0, "", userIDList) := by
  have hne := Constants.SessionLabelsDistinct.group_ne_single c hd
  have hc : IsContain data.MsgData.SendID userIDList = true := (IsContain_iff _ _).2 hmem
  simp only [messageVerification, hs, hne, if_false, if_true, hl, hmgr, hband, hc,
    Bool.not_true, Bool.false_eq_true]
  cases userIsMuteAndIsAdminInGroup c env data.MsgData.GroupID data.MsgData.SendID with
  | error err => rfl
  | ok p =>
    obtain ⟨isMute, isAdmin⟩ := p
    cases isMute <;> cases isAdmin <;> simp
    cases groupIsMuted c env data.MsgData.GroupID with
    | error err => rfl
    | ok b => cases b <;> simp

/-- C5 (as the code has it): for a classic-group message from a member that is
not the manager, with content outside the notification band and a successful
member-info lookup: a sender whose mute is active is denied with
(224, "you are muted") whether or not the sender is an admin; a sender whose
mute is not active and whose role is above ordinary is allowed with the member
list, whether or not the group is muted. -/
theorem messageVerification_group_mute_admin (c : Constants) (env : MsgEnv)
    (data : SendMsgReq) (userIDList : List String) (info : GroupMemberInfo)
    (hd : c.SessionLabelsDistinct)
    (hs : data.MsgData.SessionType = c.GroupChatType)
    (hl : env.GetGroupMemberUserIDList data.MsgData.GroupID = .ok userIDList)
    (hmgr : env.IsManagerUserID data.MsgData.SendID = false)
    (hband : ¬(data.MsgData.ContentType ≤ c.NotificationEnd ∧
      data.MsgData.ContentType ≥ c.NotificationBegin))
    (hmem : data.MsgData.SendID ∈ userIDList)
    (hi : env.GetGroupMemberInfoFromCache data.MsgData.GroupID data.MsgData.SendID = .ok info) :
    (info.MuteEndTime ≥ env.now →
      (messageVerification c env data).1 = (false, 224, "you are muted", [])) ∧
    (info.MuteEndTime < env.now → info.RoleLevel > c.GroupOrdinaryUsers →
      (messageVerification c env data).1 = (true, 0, "", userIDList)) := by
  rw [messageVerification_group_member c env data userIDList hd hs hl hmgr hband hmem]
  constructor
  · intro hm
    simp [userIsMuteAndIsAdminInGroup, hi, hm]
  · intro hm ha
    have hm2 : ¬ info.MuteEndTime ≥ env.now := not_le.mpr hm
    simp [userIsMuteAndIsAdminInGroup, hi, hm2, ha]

/-- Witness of `messageVerification_group_mute_admin`: an admin (role 3) of a
muted group whose own mute is over is allowed with the member list. -/
theorem messageVerification_group_mute_admin_witness :
    sampleConstants.SessionLabelsDistinct ∧
    (sampleReq 2 101).MsgData.SessionType = sampleConstants.GroupChatType ∧
    "u1" ∈ ["u1", "u2", "u3"] ∧
    (messageVerification sampleConstants (sampleEnv ⟨0, 3⟩ ⟨3, 0⟩) (sampleReq 2 101)).1 =
      (true, 0, "", ["u1", "u2", "u3"]) :=
  ⟨by decide, rfl, by decide,
    (messageVerification_group_mute_admin sampleConstants (sampleEnv ⟨0, 3⟩ ⟨3, 0⟩)
      (sampleReq 2 101) ["u1", "u2", "u3"] ⟨0, 3⟩ (by decide) rfl rfl rfl (by decide)
      (by decide) rfl).2 (by decide) (by decide)⟩

/-- C5 (counterexample to the claim as stated): sender `u1` is a member of group
`g`, is not the manager, sends text (outside the notification band), the
member-info lookup succeeds with role 3 (above ordinary, so an admin) and a mute
that ends at 2000 while the clock reads 1000.  The claim lets an admin through
whether or not the own mute is active; the validator denies with
(224, "you are muted"). -/
theorem messageVerification_muted_admin_denied :
    (sampleReq 2 101).MsgData.SessionType = sampleConstants.GroupChatType ∧
    (sampleEnv ⟨2000, 3⟩ ⟨0, 0⟩).GetGroupMemberUserIDList "g" = .ok ["u1", "u2", "u3"] ∧
    (sampleReq 2 101).MsgData.SendID ∈ ["u1", "u2", "u3"] ∧
    (sampleEnv ⟨2000, 3⟩ ⟨0, 0⟩).IsManagerUserID (sampleReq 2 101).MsgData.SendID = false ∧
    ¬((sampleReq 2 101).MsgData.ContentType ≤ sampleConstants.NotificationEnd ∧
      (sampleReq 2 101).MsgData.ContentType ≥ sampleConstants.NotificationBegin) ∧
    (sampleEnv ⟨2000, 3⟩ ⟨0, 0⟩).GetGroupMemberInfoFromCache "g" "u1" = .ok ⟨2000, 3⟩ ∧
    (3 : Int) > sampleConstants.GroupOrdinaryUsers ∧
    (2000 : Int) ≥ (sampleEnv ⟨2000, 3⟩ ⟨0, 0⟩).now ∧
    (messageVerification sampleConstants (sampleEnv ⟨2000, 3⟩ ⟨0, 0⟩) (sampleReq 2 101)).1 =
      (false, 224, "you are muted", []) ∧
    (messageVerification sampleConstants (sampleEnv ⟨2000, 3⟩ ⟨0, 0⟩) (sampleReq 2 101)).1 ≠
      (true, 0, "", ["u1", "u2", "u3"]) :=
  ⟨rfl, rfl, by decide, rfl, by decide, rfl, by decide, by decide, by decide, by decide⟩

/-- C6: for a single-session message the validator returns deny
(600, "in black list") if and only if the sender is not in the application-manager
list, the content type is outside the notification band, and the blocklist lookup
of the recipient succeeds (connection obtained, no RPC error, error code 0) with a
list that contains the sender; the friend-verification setting and the friendlist
play no part. -/
theorem messageVerification_single_blacklist (c : Constants) (env : MsgEnv) (data : SendMsgReq)
    (hs : data.MsgData.SessionType = c.SingleChatType) :
    (messageVerification c env data).1 = (false, 600, "in black list", []) ↔
      (data.MsgData.SendID ∉ env.AppManagerUid ∧
       ¬(data.MsgData.ContentType ≤ c.NotificationEnd ∧
          data.MsgData.ContentType ≥ c.NotificationBegin) ∧
       env.GetConn 0 = .ok () ∧
       ∃ cacheResp, env.GetBlackIDListFromCache data.MsgData.RecvID = .ok cacheResp ∧
         cacheResp.ErrCode = 0 ∧ data.MsgData.SendID ∈ cacheResp.UserIDList) := by
  simp only [messageVerification, hs, if_true]
  by_cases hm : data.MsgData.SendID ∈ env.AppManagerUid
  · simp [IsContain, hm]
  by_cases hb : (data.MsgData.ContentType ≤ c.NotificationEnd ∧
      data.MsgData.ContentType ≥ c.NotificationBegin)
  · simp [IsContain, hm, hb]
  cases hconn : env.GetConn 0 with
  | error e => simp [IsContain, hm, hb]
  | ok u =>
    have hc : IsContain data.MsgData.SendID env.AppManagerUid = false := by
      simp [IsContain, hm]
    cases hbl : env.GetBlackIDListFromCache data.MsgData.RecvID with
    | error e =>
      simp only [hc, hb, Bool.false_eq_true, if_false]
      repeat' split
      all_goals simp_all
    | ok resp =>
      simp only [hc, hb, Bool.false_eq_true, if_false]
      repeat' split
      all_goals simp_all [IsContain]

/-- Witness of `messageVerification_single_blacklist`: sender `u1` is on the
blocklist of `u2`, and is also a friend. -/
theorem messageVerification_single_blacklist_witness :
    (sampleReq 1 101).MsgData.SessionType = sampleConstants.SingleChatType ∧
    (messageVerification sampleConstants (sampleSingleEnv ["u1"] ["u1"]) (sampleReq 1 101)).1 =
      (false, 600, "in black list", []) :=
  ⟨rfl, (messageVerification_single_blacklist sampleConstants (sampleSingleEnv ["u1"] ["u1"])
    (sampleReq 1 101) rfl).2
    ⟨by decide, by decide, rfl, ⟨0, ["u1"]⟩, rfl, rfl, by decide⟩⟩

/-- C7: for a single-session message that is not bypassed (sender not an
application manager, content outside the notification band), not denied by the
blocklist, and for which the cache connection is obtained: the validator returns
deny (601, "not friend") when friend verification is enabled and the friendlist
lookup succeeds (connection obtained, no RPC error, error code 0) with a list
that does not contain the sender, and returns allow (true, 0, "") in every other
case, so a failed lookup never produces a deny. -/
theorem messageVerification_single_friend (c : Constants) (env : MsgEnv) (data : SendMsgReq)
    (hs : data.MsgData.SessionType = c.SingleChatType)
    (hmgr : data.MsgData.SendID ∉ env.AppManagerUid)
    (hband : ¬(data.MsgData.ContentType ≤ c.NotificationEnd ∧
      data.MsgData.ContentType ≥ c.NotificationBegin))
    (hconn : env.GetConn 0 = .ok ())
    (hblack : ∀ cacheResp, env.GetBlackIDListFromCache data.MsgData.RecvID = .ok cacheResp →
      cacheResp.ErrCode = 0 → data.MsgData.SendID ∉ cacheResp.UserIDList) :
    ((env.FriendVerify = true ∧ env.GetConn 1 = .ok () ∧
        ∃ cacheResp, env.GetFriendIDListFromCache data.MsgData.RecvID = .ok cacheResp ∧
          cacheResp.ErrCode = 0 ∧ data.MsgData.SendID ∉ cacheResp.UserIDList) →
      (messageVerification c env data).1 = (false, 601, "not friend", [])) ∧
    (¬(env.FriendVerify = true ∧ env.GetConn 1 = .ok () ∧
        ∃ cacheResp, env.GetFriendIDListFromCache data.MsgData.RecvID = .ok cacheResp ∧
          cacheResp.ErrCode = 0 ∧ data.MsgData.SendID ∉ cacheResp.UserIDList) →
      (messageVerification c env data).1 = (true, 0, "", [])) := by
  have hc : IsContain data.MsgData.SendID env.AppManagerUid = false := by
    simp [IsContain, hmgr]
  simp only [messageVerification, hs, if_true, hc, hband, hconn, Bool.false_eq_true, if_false]
  cases hbl : env.GetBlackIDListFromCache data.MsgData.RecvID with
  | error e =>
    constructor
    · rintro ⟨hf, hc1, resp, hfr, he, hn⟩
      simp [hf, hc1, hfr, he, IsContain, hn]
    · intro hn
      repeat' split
      all_goals simp_all [IsContain]
  | ok resp =>
    have hb2 := hblack resp hbl
    constructor
    · rintro ⟨hf, hc1, resp2, hfr, he, hn⟩
      by_cases h0 : resp.ErrCode = 0
      · simp [hf, hc1, hfr, he, IsContain, hn, h0, hb2 h0]
      · simp [hf, hc1, hfr, he, IsContain, hn, h0]
    · intro hn
      repeat' split
      all_goals simp_all [IsContain]

/-- Witness of `messageVerification_single_friend`: sender `u1` is not blocked by
`u2` and is not on the friendlist of `u2`, with friend verification enabled. -/
theorem messageVerification_single_friend_witness :
    (sampleReq 1 101).MsgData.SessionType = sampleConstants.SingleChatType ∧
    "u1" ∉ (sampleSingleEnv [] ["u9"]).AppManagerUid ∧
    (messageVerification sampleConstants (sampleSingleEnv [] ["u9"]) (sampleReq 1 101)).1 =
      (false, 601, "not friend", []) :=
  ⟨rfl, by decide,
    (messageVerification_single_friend sampleConstants (sampleSingleEnv [] ["u9"])
      (sampleReq 1 101) rfl (by decide) (by decide) rfl
      (by intro r hr _; cases hr; decide)).1
      ⟨rfl, rfl, ⟨0, ["u9"]⟩, rfl, rfl, by decide⟩⟩

/-- C8: for a classic-group message whose member-list lookup succeeds, the
validator returns deny (202, "you are not in group") if and only if the sender is
not the manager user, the content type is outside the notification band and the
sender is not in the member list; a manager sender or notification-band content
is allowed with the full member list whatever the membership and the mute
lookups say; and a failed member-list lookup yields deny 201. -/
theorem messageVerification_group_membership (c : Constants) (env : MsgEnv) (data : SendMsgReq)
    (hd : c.SessionLabelsDistinct)
    (hs : data.MsgData.SessionType = c.GroupChatType) :
    (∀ userIDList, env.GetGroupMemberUserIDList data.MsgData.GroupID = .ok userIDList →
      ((messageVerification c env data).1 = (false, 202, "you are not in group", []) ↔
        (env.IsManagerUserID data.MsgData.SendID = false ∧
          ¬(data.MsgData.ContentType ≤ c.NotificationEnd ∧
            data.MsgData.ContentType ≥ c.NotificationBegin) ∧
          data.MsgData.SendID ∉ userIDList)) ∧
      ((env.IsManagerUserID data.MsgData.SendID = true ∨
          (data.MsgData.ContentType ≤ c.NotificationEnd ∧
            data.MsgData.ContentType ≥ c.NotificationBegin)) →
        (messageVerification c env data).1 = (true, 0, "", userIDList))) ∧
    (∀ err, env.GetGroupMemberUserIDList data.MsgData.GroupID = .error err →
      (messageVerification c env data).1 = (false, 201, data.OperationID ++ err, [])) := by
  have hne := Constants.SessionLabelsDistinct.group_ne_single c hd
  constructor
  · intro userIDList hl
    constructor
    · by_cases hmgr : env.IsManagerUserID data.MsgData.SendID = true
      · simp [messageVerification, hs, hne, hl, hmgr]
      by_cases hband : (data.MsgData.ContentType ≤ c.NotificationEnd ∧
          data.MsgData.ContentType ≥ c.NotificationBegin)
      · simp [messageVerification, hs, hne, hl, hmgr, hband]
      by_cases hmem : data.MsgData.SendID ∈ userIDList
      · have hmgr2 : env.IsManagerUserID data.MsgData.SendID = false := by simpa using hmgr
        rw [messageVerification_group_member c env data userIDList hd hs hl hmgr2 hband hmem]
        simp only [hmgr2, hband, hmem, not_true_eq_false, and_false, iff_false]
        repeat' split
        all_goals simp
      · have hc : IsContain data.MsgData.SendID userIDList = false := by
          simp [IsContain, hmem]
        simp [messageVerification, hs, hne, hl, hmgr, hband, hc, hmem]
    · rintro (hmgr | hband)
      · simp [messageVerification, hs, hne, hl, hmgr]
      · by_cases hmgr : env.IsManagerUserID data.MsgData.SendID = true
        · simp [messageVerification, hs, hne, hl, hmgr]
        · simp [messageVerification, hs, hne, hl, hmgr, hband]
  · intro err hl
    simp [messageVerification, hs, hne, hl]

/-- Witness of `messageVerification_group_membership`: sender `u9` is not among
the members `u1`, `u2`, `u3`. -/
theorem messageVerification_group_membership_witness :
    sampleConstants.SessionLabelsDistinct ∧
    (sampleOutsiderReq 2 101).MsgData.SessionType = sampleConstants.GroupChatType ∧
    (messageVerification sampleConstants (sampleEnv ⟨0, 1⟩ ⟨0, 0⟩) (sampleOutsiderReq 2 101)).1 =
      (false, 202, "you are not in group", []) :=
  ⟨by decide, rfl,
    ((messageVerification_group_membership sampleConstants (sampleEnv ⟨0, 1⟩ ⟨0, 0⟩)
      (sampleOutsiderReq 2 101) (by decide) rfl).1 ["u1", "u2", "u3"] rfl).1.2
      ⟨rfl, by decide, by decide⟩⟩

/-- C9: for a classic-group message from a member that is not the manager, with
content outside the notification band, whose own mute is not active and whose
role is not above ordinary: the validator returns deny (225, "group id muted") if
and only if the group-info lookup succeeds with the muted status; if the group is
not muted it allows with the full member list; and a failure of the group-info
lookup or of the member-info lookup yields a deny with code 223. -/
theorem messageVerification_group_muted (c : Constants) (env : MsgEnv) (data : SendMsgReq)
    (userIDList : List String) (hd : c.SessionLabelsDistinct)
    (hs : data.MsgData.SessionType = c.GroupChatType)
    (hl : env.GetGroupMemberUserIDList data.MsgData.GroupID = .ok userIDList)
    (hmgr : env.IsManagerUserID data.MsgData.SendID = false)
    (hband : ¬(data.MsgData.ContentType ≤ c.NotificationEnd ∧
      data.MsgData.ContentType ≥ c.NotificationBegin))
    (hmem : data.MsgData.SendID ∈ userIDList) :
    (∀ info,
      env.GetGroupMemberInfoFromCache data.MsgData.GroupID data.MsgData.SendID = .ok info →
      info.MuteEndTime < env.now → ¬ info.RoleLevel > c.GroupOrdinaryUsers →
      ((messageVerification c env data).1 = (false, 225, "group id muted", []) ↔
        ∃ groupInfo, env.GetGroupInfoFromCache data.MsgData.GroupID = .ok groupInfo ∧
          groupInfo.Status = c.GroupStatusMuted) ∧
      (∀ groupInfo, env.GetGroupInfoFromCache data.MsgData.GroupID = .ok groupInfo →
        groupInfo.Status ≠ c.GroupStatusMuted →
        (messageVerification c env data).1 = (true, 0, "", userIDList)) ∧
      (∀ err, env.GetGroupInfoFromCache data.MsgData.GroupID = .error err →
        (messageVerification c env data).1 =
          (false, 223, data.OperationID ++ env.Wrap err "GetGroupInfoFromCache failed", []))) ∧
    (∀ err,
      env.GetGroupMemberInfoFromCache data.MsgData.GroupID data.MsgData.SendID = .error err →
      (messageVerification c env data).1 =
        (false, 223, data.OperationID ++ env.Wrap err "", [])) := by
  rw [messageVerification_group_member c env data userIDList hd hs hl hmgr hband hmem]
  constructor
  · intro info hi hm ha
    have hm2 : ¬ info.MuteEndTime ≥ env.now := not_le.mpr hm
    simp only [userIsMuteAndIsAdminInGroup, hi, hm2, if_false, ha, decide_False,
      Bool.false_eq_true, groupIsMuted]
    refine ⟨?_, ?_, ?_⟩
    · cases hg : env.GetGroupInfoFromCache data.MsgData.GroupID with
      | error e => simp
      | ok g =>
        by_cases hst : g.Status = c.GroupStatusMuted <;> simp [hst]
    · intro g hg hst
      simp [hg, hst]
    · intro err hg
      simp [hg]
  · intro err hi
    simp [userIsMuteAndIsAdminInGroup, hi]

/-- Witness of `messageVerification_group_muted`: an ordinary member (role 1), not
muted, in a group whose status is muted (3). -/
theorem messageVerification_group_muted_witness :
    sampleConstants.SessionLabelsDistinct ∧
    (sampleReq 2 101).MsgData.SessionType = sampleConstants.GroupChatType ∧
    "u1" ∈ ["u1", "u2", "u3"] ∧
    (messageVerification sampleConstants (sampleEnv ⟨0, 1⟩ ⟨3, 0⟩) (sampleReq 2 101)).1 =
      (false, 225, "group id muted", []) :=
  ⟨by decide, rfl, by decide,
    ((messageVerification_group_muted sampleConstants (sampleEnv ⟨0, 1⟩ ⟨3, 0⟩)
      (sampleReq 2 101) ["u1", "u2", "u3"] (by decide) rfl rfl rfl (by decide)
      (by decide)).1 ⟨0, 1⟩ rfl (by decide) (by decide)).1.2 ⟨⟨3, 0⟩, rfl, rfl⟩⟩

/-- C10: for a super-group-session message whose content type is not
`AdvancedRevoke`: if the group-info lookup succeeds and the group type is super,
the validator allows with an empty member list and leaves the request as it is,
whatever the member list, the member record and the mute state are; if the
group-info lookup fails the validator denies with code 201. -/
theorem messageVerification_superGroup (c : Constants) (env : MsgEnv) (data : SendMsgReq)
    (hd : c.SessionLabelsDistinct)
    (hs : data.MsgData.SessionType = c.SuperGroupChatType)
    (hct : data.MsgData.ContentType ≠ c.AdvancedRevoke) :
    (∀ groupInfo, env.GetGroupInfoFromCache data.MsgData.GroupID = .ok groupInfo →
      groupInfo.GroupType = c.SuperGroup →
      messageVerification c env data = ((true, 0, "", []), data)) ∧
    (∀ err, env.GetGroupInfoFromCache data.MsgData.GroupID = .error err →
      messageVerification c env data = ((false, 201, err, []), data)) := by
  obtain ⟨h1, h2⟩ := Constants.SessionLabelsDistinct.super_ne c hd
  constructor
  · intro g hg ht
    simp [messageVerification, hs, h1, h2, hg, advancedRevoke, hct, ht]
  · intro err hg
    simp [messageVerification, hs, h1, h2, hg]

/-- Witness of `messageVerification_superGroup`: a text message to a group of type
super (2), from a sender whose member record says muted. -/
theorem messageVerification_superGroup_witness :
    sampleConstants.SessionLabelsDistinct ∧
    (sampleReq 3 101).MsgData.SessionType = sampleConstants.SuperGroupChatType ∧
    (sampleReq 3 101).MsgData.ContentType ≠ sampleConstants.AdvancedRevoke ∧
    (messageVerification sampleConstants (sampleEnv ⟨2000, 1⟩ ⟨3, 2⟩) (sampleReq 3 101)).1 =
      (true, 0, "", []) :=
  ⟨by decide, rfl, by decide,
    congrArg Prod.fst ((messageVerification_superGroup sampleConstants
      (sampleEnv ⟨2000, 1⟩ ⟨3, 2⟩) (sampleReq 3 101) (by decide) rfl (by decide)).1
      ⟨3, 2⟩ rfl rfl)⟩

/-- The projection `pushCalls` distributes over concatenation. -/
theorem pushCalls_append (a b : List Call) : pushCalls (a ++ b) = pushCalls a ++ pushCalls b := by
  induction a with
  | nil => rfl
  | cons x xs ih => cases x <;> simp [pushCalls, ih]

/-- The gateway loop never calls the offline provider. -/
theorem pushCalls_onlinePushLoop (msg : MsgData) (pushToUserIDs : List String)
    (conns : List Replica) (i : Nat) :
    pushCalls (onlinePushLoop msg pushToUserIDs i conns).1 = [] := by
  induction conns generalizing i with
  | nil => rfl
  | cons v conns ih =>
    simp only [onlinePushLoop]
    split <;> simp [pushCalls, ih]

/-- The function `GetConnsAndOnlinePush` never calls the offline provider. -/
theorem pushCalls_GetConnsAndOnlinePush (env : PushEnv) (msg : MsgData)
    (pushToUserIDs : List String) :
    pushCalls (GetConnsAndOnlinePush env msg pushToUserIDs).1 = [] := by
  unfold GetConnsAndOnlinePush
  split
  · rfl
  · exact pushCalls_onlinePushLoop _ _ _ _

/-- Every recipient list that the offline block hands to the provider is the list
the offline-before hook left in its out-parameter, for the offline list `need`
the hook was called with. -/
theorem superGroupOfflinePush_push_arg (c : Constants) (env : PushEnv) (groupID : String)
    (msg : MsgData) (pushToUserIDs : List String) (wsResults : List SingleMsgToUserResultList)
    (ids : List String)
    (h : ids ∈ pushCalls (superGroupOfflinePush c env groupID msg pushToUserIDs wsResults).1) :
    ∃ need, needOfflinePushUserIDs c env groupID msg pushToUserIDs wsResults = .ok need ∧
      ids = (env.callbackOfflinePush need msg).1 := by
  unfold superGroupOfflinePush at h
  cases hn : needOfflinePushUserIDs c env groupID msg pushToUserIDs wsResults with
  | error err => simp [hn, pushCalls] at h
  | ok need =>
    refine ⟨need, rfl, ?_⟩
    simp only [hn] at h
    split at h
    · rcases hcb : env.callbackOfflinePush need msg with ⟨hookIDs, herr⟩
      rw [hcb] at h
      have hw := pushCalls_GetConnsAndOnlinePush env msg
        (IntersectString (if hookIDs.length > 0 then hookIDs else need)
          (WebAndPcBackgroundUserIDs c env wsResults))
      cases herr with
      | some err => simp [pushCalls] at h
      | none =>
        simp only [offlinePushMsg] at h
        cases hinfo : getOfflinePushInfos c env groupID msg with
        | error err => simp [hinfo, pushCalls] at h
        | ok t =>
          obtain ⟨title, content, opts⟩ := t
          simp only [hinfo] at h
          cases hp : env.Push hookIDs title content opts with
          | some err =>
            simp [hp, pushCalls] at h
            exact h
          | none =>
            simp only [hp] at h
            split at h <;>
              · simp [pushCalls_append, pushCalls, hw] at h
                exact h
    · simp [pushCalls] at h

/-- Every recipient list that `MsgToSuperGroupUser` hands to the provider is the
list the offline-before hook left in its out-parameter. -/
theorem MsgToSuperGroupUser_push_arg (c : Constants) (env : PushEnv) (successCount : Nat)
    (groupID : String) (msg : MsgData) (ids : List String)
    (h : ids ∈ pushCalls (MsgToSuperGroupUser c env successCount groupID msg).calls) :
    ∃ pushToUserIDs wsResults need,
      needOfflinePushUserIDs c env groupID msg pushToUserIDs wsResults = .ok need ∧
        ids = (env.callbackOfflinePush need msg).1 := by
  unfold MsgToSuperGroupUser at h
  split at h
  · simp [pushCalls] at h
  · rename_i hookUserIDs _ _ _
    cases hm : superGroupPushToUserIDs env groupID hookUserIDs with
    | error err => simp [hm, pushCalls] at h
    | ok pushToUserIDs =>
      simp only [hm] at h
      have hg := pushCalls_GetConnsAndOnlinePush env msg pushToUserIDs
      rcases hgc : GetConnsAndOnlinePush env msg pushToUserIDs with ⟨calls, r⟩
      rw [hgc] at hg h
      simp only [] at hg
      cases r with
      | error err => simp [hg] at h
      | ok wsResults =>
        simp only [] at h
        split at h
        · simp only [pushCalls_append, hg, List.nil_append] at h
          exact ⟨pushToUserIDs, wsResults,
            superGroupOfflinePush_push_arg c env groupID msg pushToUserIDs wsResults ids h⟩
        · simp [hg] at h

/-- C1 (the code at the failing input): members `u1`, `u2`, `u3`, sender `u1`, the
gateway reports `u2` online and `u3` not, the message is eligible for offline
push and the offline-before hook supplies no replacement list.  The computed
offline list is `[u3]` and the hook is called with it, but the provider is
called once with the empty list. -/
theorem MsgToSuperGroupUser_push_gets_hook_list :
    GetSwitchFromOptions (sampleMsg sampleConstants 101).Options
      sampleConstants.IsOfflinePush = true ∧
    (samplePushEnv.callbackOfflinePush ["u3"] (sampleMsg sampleConstants 101)).1 = [] ∧
    (MsgToSuperGroupUser sampleConstants samplePushEnv 0 "g"
      (sampleMsg sampleConstants 101)).calls =
      [Call.onlineBatchPush 0 ["u1", "u2", "u3"], Call.callbackOfflinePush ["u3"],
        Call.push [] "[Msg]" "[Msg]" ⟨none, 0, "", ""⟩, Call.promeInc true,
        Call.onlineBatchPush 0 []] ∧
    pushCalls (MsgToSuperGroupUser sampleConstants samplePushEnv 0 "g"
      (sampleMsg sampleConstants 101)).calls = [[]] := by
  decide

/-- The function `MsgToUser` calls the offline provider only past the guard of line 62 and
past the scan of the gateway records: if the switch is off, or the recipient is
the sender, or a record reports an online push, no `Push` call is made. -/
theorem MsgToUser_no_push (c : Constants) (env : PushEnv) (successCount : Nat)
    (userID : String) (msg : MsgData)
    (h : GetSwitchFromOptions msg.Options c.IsOfflinePush = false ∨ userID = msg.SendID ∨
      ∃ wsResults, (GetConnsAndOnlinePush env msg [userID]).2 = .ok wsResults ∧
        ∃ v ∈ wsResults, v.OnlinePush = true) :
    pushCalls (MsgToUser c env successCount userID msg).calls = [] := by
  have hg := pushCalls_GetConnsAndOnlinePush env msg [userID]
  unfold MsgToUser
  simp only []
  split
  · rfl
  · rcases hgc : GetConnsAndOnlinePush env msg [userID] with ⟨calls, r⟩
    rw [hgc] at hg h
    simp only [] at hg h
    cases r with
    | error err => simpa using hg
    | ok wsResults =>
      simp only []
      rcases h with h | h | ⟨ws, hws, v, hv, hon⟩
      · simp [h, hg]
      · simp [h, hg]
      · cases hws
        have hany : (wsResults.any fun v => v.OnlinePush) = true :=
          List.any_eq_true.2 ⟨v, hv, hon⟩
        simp only [hany, if_true]
        split <;> exact hg

/-- The function `MsgToSuperGroupUser` makes no `Push` call when the switch is off. -/
theorem MsgToSuperGroupUser_no_push (c : Constants) (env : PushEnv) (successCount : Nat)
    (groupID : String) (msg : MsgData)
    (h : GetSwitchFromOptions msg.Options c.IsOfflinePush = false) :
    pushCalls (MsgToSuperGroupUser c env successCount groupID msg).calls = [] := by
  unfold MsgToSuperGroupUser
  simp only [h, Bool.false_eq_true, if_false]
  split
  · rfl
  · rename_i hookUserIDs _ _ _
    cases hm : superGroupPushToUserIDs env groupID hookUserIDs with
    | error err => rfl
    | ok pushToUserIDs =>
      simp only []
      have hg := pushCalls_GetConnsAndOnlinePush env msg pushToUserIDs
      rcases hgc : GetConnsAndOnlinePush env msg pushToUserIDs with ⟨calls, r⟩
      rw [hgc] at hg
      cases r <;> simpa using hg

/-- C2: when the option map of the envelope holds `IsOfflinePush = false`,
neither `MsgToUser` nor `MsgToSuperGroupUser` calls the offline provider,
whatever the gateways answer; and `MsgToUser` calls it neither when the recipient
is the sender of the message nor when a gateway record reports an online push. -/
theorem no_push_when_not_eligible (c : Constants) (env : PushEnv) (successCount : Nat)
    (userID groupID : String) (msg : MsgData) :
    (∀ m, msg.Options = some m → m c.IsOfflinePush = some false →
      pushCalls (MsgToUser c env successCount userID msg).calls = [] ∧
      pushCalls (MsgToSuperGroupUser c env successCount groupID msg).calls = []) ∧
    (userID = msg.SendID → pushCalls (MsgToUser c env successCount userID msg).calls = []) ∧
    (∀ wsResults, (GetConnsAndOnlinePush env msg [userID]).2 = .ok wsResults →
      (∃ v ∈ wsResults, v.OnlinePush = true) →
      pushCalls (MsgToUser c env successCount userID msg).calls = []) := by
  refine ⟨?_, ?_, ?_⟩
  · intro m hm hk
    have hoff : GetSwitchFromOptions msg.Options c.IsOfflinePush = false := by
      simp [GetSwitchFromOptions, hm, hk]
    exact ⟨MsgToUser_no_push c env successCount userID msg (Or.inl hoff),
      MsgToSuperGroupUser_no_push c env successCount groupID msg hoff⟩
  · intro h
    exact MsgToUser_no_push c env successCount userID msg (Or.inr (Or.inl h))
  · intro ws hws hv
    exact MsgToUser_no_push c env successCount userID msg (Or.inr (Or.inr ⟨ws, hws, hv⟩))

/-- The offline path is live: with the same gateway answer and an option map that
does not switch offline push off, `MsgToUser` calls the provider once, for `u3`,
with the title derived for a picture. -/
theorem MsgToUser_pushes_when_eligible :
    (MsgToUser sampleConstants sampleOfflineEnv 0 "u3" (sampleMsg sampleConstants 102)).calls =
      [Call.onlineBatchPush 0 ["u3"], Call.callbackOfflinePush ["u3"],
        Call.push ["u3"] "[Picture]" "[Picture]" ⟨none, 0, "", ""⟩, Call.promeInc true] := by
  decide

/-- Witness of `no_push_when_not_eligible`: the gateway reports `u3` as not
reached, the option map holds `IsOfflinePush = false`, and neither entry point
calls the provider. -/
theorem no_push_when_not_eligible_witness :
    (sampleMsgOfflineOff sampleConstants 102).Options =
      some (OptionMap.empty.insert sampleConstants.IsOfflinePush false) ∧
    OptionMap.empty.insert sampleConstants.IsOfflinePush false sampleConstants.IsOfflinePush =
      some false ∧
    pushCalls (MsgToUser sampleConstants sampleOfflineEnv 0 "u3"
      (sampleMsgOfflineOff sampleConstants 102)).calls = [] ∧
    pushCalls (MsgToSuperGroupUser sampleConstants sampleOfflineEnv 0 "g"
      (sampleMsgOfflineOff sampleConstants 102)).calls = [] :=
  ⟨rfl, by decide,
    (no_push_when_not_eligible sampleConstants sampleOfflineEnv 0 "u3" "g"
      (sampleMsgOfflineOff sampleConstants 102)).1
      (OptionMap.empty.insert sampleConstants.IsOfflinePush false) rfl (by decide)⟩

/-- C11: for a super-group-session message whose group type is not super and whose
content type is not `AdvancedRevoke`, the returned tuple (allow flag, code,
reason, member list) is the tuple the classic-group branch returns for the same
request and the same lookup outcomes. -/
theorem messageVerification_superGroup_as_group (c : Constants) (env : MsgEnv)
    (data : SendMsgReq) (groupInfo : GroupInfo)
    (hd : c.SessionLabelsDistinct)
    (hs : data.MsgData.SessionType = c.SuperGroupChatType)
    (hct : data.MsgData.ContentType ≠ c.AdvancedRevoke)
    (hg : env.GetGroupInfoFromCache data.MsgData.GroupID = .ok groupInfo)
    (ht : groupInfo.GroupType ≠ c.SuperGroup) :
    (messageVerification c env data).1 =
      (messageVerification c env
        { data with MsgData := { data.MsgData with SessionType := c.GroupChatType } }).1 := by
  obtain ⟨h1, h2⟩ := Constants.SessionLabelsDistinct.super_ne c hd
  have h3 := Constants.SessionLabelsDistinct.group_ne_single c hd
  simp only [messageVerification, hs, h1, h2, h3, hg, advancedRevoke, hct, ht, if_false,
    if_true]
  repeat' split
  all_goals simp_all

/-- Witness of `messageVerification_superGroup_as_group`: an ordinary member of a
muted group of type 0, addressed as a super-group session, gets the classic
verdict (225, "group id muted"). -/
theorem messageVerification_superGroup_as_group_witness :
    sampleConstants.SessionLabelsDistinct ∧
    (sampleReq 3 101).MsgData.SessionType = sampleConstants.SuperGroupChatType ∧
    (sampleReq 3 101).MsgData.ContentType ≠ sampleConstants.AdvancedRevoke ∧
    (⟨3, 0⟩ : GroupInfo).GroupType ≠ sampleConstants.SuperGroup ∧
    (messageVerification sampleConstants (sampleEnv ⟨0, 1⟩ ⟨3, 0⟩) (sampleReq 3 101)).1 =
      (messageVerification sampleConstants (sampleEnv ⟨0, 1⟩ ⟨3, 0⟩)
        { sampleReq 3 101 with MsgData :=
          { (sampleReq 3 101).MsgData with SessionType := sampleConstants.GroupChatType } }).1 ∧
    (messageVerification sampleConstants (sampleEnv ⟨0, 1⟩ ⟨3, 0⟩) (sampleReq 3 101)).1 =
      (false, 225, "group id muted", []) :=
  ⟨by decide, rfl, by decide, by decide,
    messageVerification_superGroup_as_group sampleConstants (sampleEnv ⟨0, 1⟩ ⟨3, 0⟩)
      (sampleReq 3 101) ⟨3, 0⟩ (by decide) rfl (by decide) rfl (by decide),
    by decide⟩

/-- The `AdvancedRevoke` step when the payload decodes, names a revoker other than
the source sender, and the referenced message is fetched with error code 0: the
step depends on the fetched message alone (lines 207-215). -/
theorem advancedRevoke_fetched (c : Constants) (env : MsgEnv) (data : SendMsgReq)
    (revokeMessage : MessageRevoked) (resp : GetSuperGroupMsgResp)
    (hct : data.MsgData.ContentType = c.AdvancedRevoke)
    (hj : env.JsonStringToStruct data.MsgData.Content = .ok revokeMessage)
    (hr : revokeMessage.RevokerID ≠ revokeMessage.SourceMessageSendID)
    (hf : env.GetSuperGroupMsg data.MsgData.GroupID revokeMessage.Seq = .ok resp)
    (he : resp.ErrCode = 0) :
    advancedRevoke c env data =
      match resp.MsgData with
      | none => .error (false, 201, "msg err", [])
      | some m =>
        if m.ClientMsgID = revokeMessage.ClientMsgID ∧ m.Seq = revokeMessage.Seq then
          .ok { data with MsgData := { data.MsgData with
            Content := env.StructToJsonString { revokeMessage with
              SourceMessageSendTime := m.SendTime
              SourceMessageSenderNickname := m.SenderNickname
              SourceMessageSendID := m.SendID } } }
        else .error (false, 201, "msg err", []) := by
  simp only [advancedRevoke, hct, if_true, hj, hr, ne_eq, not_false_eq_true, hf, he,
    not_true_eq_false, if_false]

/-- C12: for a super-group `AdvancedRevoke` message whose payload decodes with a
revoker other than the source sender and whose referenced message is fetched
successfully (no RPC error, error code 0): if the fetched message is absent, or
its client message id or its sequence number differs from the payload's, the
validator denies with (201, "msg err"), returns no member list and leaves the
request, its content included, as it was. -/
theorem messageVerification_revoke_mismatch (c : Constants) (env : MsgEnv) (data : SendMsgReq)
    (groupInfo : GroupInfo) (revokeMessage : MessageRevoked) (resp : GetSuperGroupMsgResp)
    (hd : c.SessionLabelsDistinct)
    (hs : data.MsgData.SessionType = c.SuperGroupChatType)
    (hg : env.GetGroupInfoFromCache data.MsgData.GroupID = .ok groupInfo)
    (hct : data.MsgData.ContentType = c.AdvancedRevoke)
    (hj : env.JsonStringToStruct data.MsgData.Content = .ok revokeMessage)
    (hr : revokeMessage.RevokerID ≠ revokeMessage.SourceMessageSendID)
    (hf : env.GetSuperGroupMsg data.MsgData.GroupID revokeMessage.Seq = .ok resp)
    (he : resp.ErrCode = 0)
    (hm : resp.MsgData = none ∨ ∃ m, resp.MsgData = some m ∧
      (m.ClientMsgID ≠ revokeMessage.ClientMsgID ∨ m.Seq ≠ revokeMessage.Seq)) :
    messageVerification c env data = ((false, 201, "msg err", []), data) := by
  obtain ⟨h1, h2⟩ := Constants.SessionLabelsDistinct.super_ne c hd
  have hstep : advancedRevoke c env data = .error (false, 201, "msg err", []) := by
    rw [advancedRevoke_fetched c env data revokeMessage resp hct hj hr hf he]
    rcases hm with hn | ⟨m, hsome, hne⟩
    · simp [hn]
    · have hnot : ¬(m.ClientMsgID = revokeMessage.ClientMsgID ∧ m.Seq = revokeMessage.Seq) := by
        rintro ⟨ha, hb⟩
        rcases hne with hne | hne
        · exact hne ha
        · exact hne hb
      simp [hsome, hnot]
  simp only [messageVerification, hs, h1, h2, if_false, if_true, hg, hstep]

/-- Witness of `messageVerification_revoke_mismatch`: the payload names client id
`c9`, the message stored at sequence number 5 has client id `c8` (scenario S6). -/
theorem messageVerification_revoke_mismatch_witness :
    sampleConstants.SessionLabelsDistinct ∧
    (sampleReq 3 118).MsgData.ContentType = sampleConstants.AdvancedRevoke ∧
    sampleRevoke.RevokerID ≠ sampleRevoke.SourceMessageSendID ∧
    (sampleStored "c8" 5).ClientMsgID ≠ sampleRevoke.ClientMsgID ∧
    (messageVerification sampleConstants (sampleRevokeEnv (some (sampleStored "c8" 5)))
      (sampleReq 3 118)).1 = (false, 201, "msg err", []) ∧
    (messageVerification sampleConstants (sampleRevokeEnv (some (sampleStored "c8" 5)))
      (sampleReq 3 118)).2.MsgData.Content = (sampleReq 3 118).MsgData.Content :=
  ⟨by decide, rfl, by decide, by decide,
    congrArg Prod.fst (messageVerification_revoke_mismatch sampleConstants
      (sampleRevokeEnv (some (sampleStored "c8" 5))) (sampleReq 3 118) ⟨0, 2⟩ sampleRevoke
      ⟨0, "", some (sampleStored "c8" 5)⟩ (by decide) rfl rfl rfl rfl (by decide) rfl rfl
      (Or.inr ⟨sampleStored "c8" 5, rfl, Or.inl (by decide)⟩)),
    by decide⟩

/-- The request that `messageVerification` leaves behind is the one it was given or
the one the `AdvancedRevoke` step goes on with. -/
theorem messageVerification_snd (c : Constants) (env : MsgEnv) (data : SendMsgReq) :
    (messageVerification c env data).2 = data ∨
      ∃ d, advancedRevoke c env data = .ok d ∧ (messageVerification c env data).2 = d := by
  by_cases h1 : data.MsgData.SessionType = c.SingleChatType
  · left
    simp only [messageVerification, h1, if_true]
    repeat' split
    all_goals rfl
  by_cases h2 : data.MsgData.SessionType = c.GroupChatType
  · left
    simp only [messageVerification, h1, h2, if_true, if_false]
    repeat' split
    all_goals rfl
  by_cases h3 : data.MsgData.SessionType = c.SuperGroupChatType
  · simp only [messageVerification, h1, h2, if_false]
    simp only [h3, if_true]
    cases env.GetGroupInfoFromCache data.MsgData.GroupID with
    | error err => exact Or.inl rfl
    | ok groupInfo =>
      cases advancedRevoke c env data with
      | error ret => exact Or.inl rfl
      | ok d =>
        right
        refine ⟨d, rfl, ?_⟩
        simp only []
        repeat' split
        all_goals rfl
  · left
    simp only [messageVerification, h1, h2, h3, if_false]

/-- The `AdvancedRevoke` step goes on with the request it was given, or with the
request whose content is the serialisation of the payload rewritten from the
fetched message, which then agrees with the payload on client message id and
sequence number. -/
theorem advancedRevoke_ok (c : Constants) (env : MsgEnv) (data d : SendMsgReq)
    (h : advancedRevoke c env data = .ok d) :
    d = data ∨
    ∃ rm resp m,
      env.JsonStringToStruct data.MsgData.Content = .ok rm ∧
      env.GetSuperGroupMsg data.MsgData.GroupID rm.Seq = .ok resp ∧
      resp.MsgData = some m ∧ m.ClientMsgID = rm.ClientMsgID ∧ m.Seq = rm.Seq ∧
      d = { data with MsgData := { data.MsgData with
        Content := env.StructToJsonString { rm with
          SourceMessageSendTime := m.SendTime
          SourceMessageSenderNickname := m.SenderNickname
          SourceMessageSendID := m.SendID } } } := by
  unfold advancedRevoke at h
  split at h
  · split at h
    · cases h
    · rename_i rm hj
      split at h
      · split at h
        · cases h; exact Or.inl rfl
        · rename_i resp hf
          split at h
          · cases h; exact Or.inl rfl
          · split at h
            · cases h
            · rename_i m hm
              split at h
              · rename_i hmatch
                cases h
                exact Or.inr ⟨rm, resp, m, hj, hf, hm, hmatch.1, hmatch.2, rfl⟩
              · cases h
      · cases h; exact Or.inl rfl
  · cases h; exact Or.inl rfl

/-- C13: whatever the request and the lookups, either `messageVerification` leaves
the request as it was, or it is the super-group validator rewriting the revoke
payload: the payload `rm` decoded from the content and the fetched original `m`
agree on client message id and sequence number, and the new content is the
serialisation of a payload whose client message id is the one of `m`, whose
sequence number and revoker are the ones of `rm`, and whose
`SourceMessageSendTime`, `SourceMessageSenderNickname`, `SourceMessageSendID`
are `SendTime`, `SenderNickname`, `SendID` of `m`. -/
theorem messageVerification_revoke_rewrite (c : Constants) (env : MsgEnv) (data : SendMsgReq) :
    (messageVerification c env data).2 = data ∨
    ∃ rm resp m rm2,
      env.JsonStringToStruct data.MsgData.Content = .ok rm ∧
      env.GetSuperGroupMsg data.MsgData.GroupID rm.Seq = .ok resp ∧
      resp.MsgData = some m ∧
      (messageVerification c env data).2 =
        { data with MsgData := { data.MsgData with Content := env.StructToJsonString rm2 } } ∧
      rm2.ClientMsgID = m.ClientMsgID ∧ rm2.ClientMsgID = rm.ClientMsgID ∧
      rm2.Seq = rm.Seq ∧ rm2.Seq = m.Seq ∧ rm2.RevokerID = rm.RevokerID ∧
      rm2.SourceMessageSendTime = m.SendTime ∧
      rm2.SourceMessageSenderNickname = m.SenderNickname ∧
      rm2.SourceMessageSendID = m.SendID ∧
      rm2.RevokerRole = rm.RevokerRole ∧ rm2.RevokerNickname = rm.RevokerNickname ∧
      rm2.RevokeTime = rm.RevokeTime ∧ rm2.SessionType = rm.SessionType := by
  rcases messageVerification_snd c env data with h | ⟨d, hd, h⟩
  · exact Or.inl h
  · rcases advancedRevoke_ok c env data d hd with hdd | ⟨rm, resp, m, hj, hf, hm, hc, hq, hdd⟩
    · exact Or.inl (h.trans hdd)
    · refine Or.inr ⟨rm, resp, m, _, hj, hf, hm, h.trans hdd, ?_⟩
      simp [hc, hq]

/-- The rewrite does happen: the payload names client id `c9` and sequence number
5, the stored message agrees, and the content becomes the serialisation of the
payload with the source sender `u3` and nickname `n3` of the stored message. -/
theorem messageVerification_revoke_rewrite_example :
    (messageVerification sampleConstants (sampleRevokeEnv (some (sampleStored "c9" 5)))
      (sampleReq 3 118)).1 = (true, 0, "", []) ∧
    (messageVerification sampleConstants (sampleRevokeEnv (some (sampleStored "c9" 5)))
      (sampleReq 3 118)).2.MsgData.Content = "c9/u3/n3" := by
  decide

/-- The three receive options are pairwise different. -/
theorem Constants.RecvOptLabelsDistinct.ne (c : Constants) (hd : c.RecvOptLabelsDistinct) :
    c.ReceiveMessage ≠ c.NotReceiveMessage ∧ c.ReceiveMessage ≠ c.ReceiveNotNotifyMessage ∧
      c.NotReceiveMessage ≠ c.ReceiveNotNotifyMessage := by
  refine ⟨?_, ?_, ?_⟩ <;>
    · intro h
      simp [Constants.RecvOptLabelsDistinct, h] at hd

/-- The resolver on a failed global lookup: the error is returned with the flag
`false` (lines 319-321). -/
theorem modifyMessageByUserMessageReceiveOpt_global_error (c : Constants) (env : RecvEnv)
    (userID sourceID : String) (sessionType : Int) (pb : SendMsgReq) (opt : Int)
    (err : StoreError) (hglob : env.GetUserGlobalMsgRecvOpt userID = (opt, some err)) :
    modifyMessageByUserMessageReceiveOpt c env userID sourceID sessionType pb =
      ((false, some err), pb) := by
  simp [modifyMessageByUserMessageReceiveOpt, hglob]

/-- The resolver on the global option `NotReceiveMessage`: do not send, whatever
the content type and the per-conversation option (lines 324-325). -/
theorem modifyMessageByUserMessageReceiveOpt_global_notReceive (c : Constants) (env : RecvEnv)
    (userID sourceID : String) (sessionType : Int) (pb : SendMsgReq)
    (hd : c.RecvOptLabelsDistinct)
    (hglob : env.GetUserGlobalMsgRecvOpt userID = (c.NotReceiveMessage, none)) :
    modifyMessageByUserMessageReceiveOpt c env userID sourceID sessionType pb =
      ((false, none), pb) := by
  obtain ⟨h1, -, -⟩ := Constants.RecvOptLabelsDistinct.ne c hd
  simp [modifyMessageByUserMessageReceiveOpt, hglob, Ne.symm h1]

/-- The resolver on the global option `ReceiveNotNotifyMessage`: send with
`IsOfflinePush` switched off, whatever the per-conversation option (lines
326-331). -/
theorem modifyMessageByUserMessageReceiveOpt_global_notNotify (c : Constants) (env : RecvEnv)
    (userID sourceID : String) (sessionType : Int) (pb : SendMsgReq)
    (hd : c.RecvOptLabelsDistinct)
    (hglob : env.GetUserGlobalMsgRecvOpt userID = (c.ReceiveNotNotifyMessage, none)) :
    modifyMessageByUserMessageReceiveOpt c env userID sourceID sessionType pb =
      ((true, none), forceOfflinePushOff c pb) := by
  obtain ⟨-, h2, h3⟩ := Constants.RecvOptLabelsDistinct.ne c hd
  simp [modifyMessageByUserMessageReceiveOpt, hglob, Ne.symm h2, Ne.symm h3]

/-- The resolver when the global option is neither `NotReceiveMessage` nor
`ReceiveNotNotifyMessage`: the per-conversation part decides (lines 333-355). -/
theorem modifyMessageByUserMessageReceiveOpt_per_conversation (c : Constants) (env : RecvEnv)
    (userID sourceID : String) (sessionType : Int) (pb : SendMsgReq) (opt : Int)
    (hglob : env.GetUserGlobalMsgRecvOpt userID = (opt, none))
    (h1 : opt ≠ c.NotReceiveMessage) (h2 : opt ≠ c.ReceiveNotNotifyMessage) :
    modifyMessageByUserMessageReceiveOpt c env userID sourceID sessionType pb =
      match env.GetSingleConversationRecvMsgOpt userID
          (env.GetConversationIDBySessionType sourceID sessionType) with
      | (_, some (StoreError.other _)) => ((true, none), pb)
      | (singleOpt, _) =>
        if singleOpt = c.ReceiveMessage then ((true, none), pb)
        else if singleOpt = c.NotReceiveMessage then
          if IsContainInt pb.MsgData.ContentType (ExcludeContentType c) then ((true, none), pb)
          else ((false, none), pb)
        else if singleOpt = c.ReceiveNotNotifyMessage then
          ((true, none), forceOfflinePushOff c pb)
        else ((true, none), pb) := by
  simp only [modifyMessageByUserMessageReceiveOpt, hglob, h1, h2, if_false]
  split <;> rfl

/-- The resolver leaves the request as it was or switches `IsOfflinePush` off in
it; nothing else of the request is written. -/
theorem modifyMessageByUserMessageReceiveOpt_snd (c : Constants) (env : RecvEnv)
    (userID sourceID : String) (sessionType : Int) (pb : SendMsgReq) :
    (modifyMessageByUserMessageReceiveOpt c env userID sourceID sessionType pb).2 = pb ∨
    (modifyMessageByUserMessageReceiveOpt c env userID sourceID sessionType pb).2 =
      forceOfflinePushOff c pb := by
  simp only [modifyMessageByUserMessageReceiveOpt]
  rcases env.GetUserGlobalMsgRecvOpt userID with ⟨opt, _ | err⟩
  · rcases env.GetSingleConversationRecvMsgOpt userID
      (env.GetConversationIDBySessionType sourceID sessionType) with ⟨so, _ | _ | t⟩
    all_goals
      simp only []
      split_ifs <;> simp
  · simp

/-- Switching `IsOfflinePush` off keeps group, sender, receiver and content type. -/
theorem forceOfflinePushOff_fields (c : Constants) (pb : SendMsgReq) :
    (forceOfflinePushOff c pb).MsgData.GroupID = pb.MsgData.GroupID ∧
    (forceOfflinePushOff c pb).MsgData.SendID = pb.MsgData.SendID ∧
    (forceOfflinePushOff c pb).MsgData.RecvID = pb.MsgData.RecvID ∧
    (forceOfflinePushOff c pb).MsgData.ContentType = pb.MsgData.ContentType :=
  ⟨rfl, rfl, rfl, rfl⟩

/-- The resolver keeps group, sender, receiver and content type of the request. -/
theorem modifyMessageByUserMessageReceiveOpt_fields (c : Constants) (env : RecvEnv)
    (userID sourceID : String) (sessionType : Int) (pb : SendMsgReq) :
    (modifyMessageByUserMessageReceiveOpt c env userID sourceID sessionType pb).2.MsgData.GroupID =
      pb.MsgData.GroupID ∧
    (modifyMessageByUserMessageReceiveOpt c env userID sourceID sessionType pb).2.MsgData.SendID =
      pb.MsgData.SendID ∧
    (modifyMessageByUserMessageReceiveOpt c env userID sourceID sessionType pb).2.MsgData.RecvID =
      pb.MsgData.RecvID ∧
    (modifyMessageByUserMessageReceiveOpt c env userID sourceID sessionType
        pb).2.MsgData.ContentType = pb.MsgData.ContentType := by
  rcases modifyMessageByUserMessageReceiveOpt_snd c env userID sourceID sessionType pb with h | h
  · rw [h]; exact ⟨rfl, rfl, rfl, rfl⟩
  · rw [h]; exact forceOfflinePushOff_fields c pb

/-- Every `MsgToMQ` call of the loop is for a recipient `p.1` on which the resolver,
run on the request with the receiver set to `p.1` and a fresh copy of
`tempOptions`, answered "send"; the message dispatched is the one the resolver
left. -/
theorem sendLoop_sent (c : Constants) (env : RecvEnv) (tempOptions : OptionMap)
    (list : List String) (groupPB : SendMsgReq) (p : String × MsgData)
    (hp : p ∈ (sendLoop c env tempOptions list groupPB).sent) :
    ∃ pb1 : SendMsgReq,
      pb1.MsgData.GroupID = groupPB.MsgData.GroupID ∧
      pb1.MsgData.ContentType = groupPB.MsgData.ContentType ∧
      pb1.MsgData.Options = some tempOptions ∧
      pb1.MsgData.RecvID = p.1 ∧
      (modifyMessageByUserMessageReceiveOpt c env p.1 groupPB.MsgData.GroupID c.GroupChatType
        pb1).1 = (true, none) ∧
      p.2 = (modifyMessageByUserMessageReceiveOpt c env p.1 groupPB.MsgData.GroupID
        c.GroupChatType pb1).2.MsgData := by
  induction list generalizing groupPB with
  | nil => simp [sendLoop] at hp
  | cons v list ih =>
    have hf := modifyMessageByUserMessageReceiveOpt_fields c env v groupPB.MsgData.GroupID
      c.GroupChatType (withRecipient groupPB v tempOptions)
    have hgid : (withRecipient groupPB v tempOptions).MsgData.GroupID =
      groupPB.MsgData.GroupID := rfl
    simp only [sendLoop, hgid] at hp
    rcases hmod : modifyMessageByUserMessageReceiveOpt c env v groupPB.MsgData.GroupID
      c.GroupChatType (withRecipient groupPB v tempOptions) with ⟨⟨isSend, e⟩, pb2⟩
    rw [hmod] at hp hf
    simp only [] at hf
    have hhead : p = (v, pb2.MsgData) → isSend = true → e = none →
        ∃ pb1 : SendMsgReq,
          pb1.MsgData.GroupID = groupPB.MsgData.GroupID ∧
          pb1.MsgData.ContentType = groupPB.MsgData.ContentType ∧
          pb1.MsgData.Options = some tempOptions ∧
          pb1.MsgData.RecvID = p.1 ∧
          (modifyMessageByUserMessageReceiveOpt c env p.1 groupPB.MsgData.GroupID
            c.GroupChatType pb1).1 = (true, none) ∧
          p.2 = (modifyMessageByUserMessageReceiveOpt c env p.1 groupPB.MsgData.GroupID
            c.GroupChatType pb1).2.MsgData := by
      intro hpe hs he
      subst hpe hs he
      refine ⟨withRecipient groupPB v tempOptions, rfl, rfl, rfl, rfl, ?_, ?_⟩
      · simp only [hmod]
      · simp only [hmod]
    have htail : p ∈ (sendLoop c env tempOptions list pb2).sent →
        ∃ pb1 : SendMsgReq,
          pb1.MsgData.GroupID = groupPB.MsgData.GroupID ∧
          pb1.MsgData.ContentType = groupPB.MsgData.ContentType ∧
          pb1.MsgData.Options = some tempOptions ∧
          pb1.MsgData.RecvID = p.1 ∧
          (modifyMessageByUserMessageReceiveOpt c env p.1 groupPB.MsgData.GroupID
            c.GroupChatType pb1).1 = (true, none) ∧
          p.2 = (modifyMessageByUserMessageReceiveOpt c env p.1 groupPB.MsgData.GroupID
            c.GroupChatType pb1).2.MsgData := by
      intro hin
      obtain ⟨pb1, h1, h2, h3, h4, h5, h6⟩ := ih pb2 hin
      have hg : pb2.MsgData.GroupID = groupPB.MsgData.GroupID := hf.1
      have hc : pb2.MsgData.ContentType = groupPB.MsgData.ContentType := hf.2.2.2
      rw [hg] at h1 h5 h6
      exact ⟨pb1, h1, h2.trans hc, h3, h4, h5, h6⟩
    cases e with
    | some err => simp at hp
    | none =>
      simp only [] at hp
      cases isSend with
      | false =>
        simp only [Bool.false_eq_true, if_false] at hp
        exact htail hp
      | true =>
        simp only [if_true] at hp
        split at hp
        · simp at hp
        · split at hp
          · simp only [List.mem_singleton] at hp
            exact hhead hp rfl rfl
          · simp only [List.mem_cons] at hp
            rcases hp with hp | hp
            · exact hhead hp rfl rfl
            · exact htail hp

/-- The request the resolver leaves, in terms of the answers of the store for the
recipient: `IsOfflinePush` is switched off when a `ReceiveNotNotifyMessage` case is
reached, and the request is untouched otherwise. -/
theorem modifyMessageByUserMessageReceiveOpt_options (c : Constants) (env : RecvEnv)
    (userID sourceID : String) (sessionType : Int) (pb : SendMsgReq)
    (hd : c.RecvOptLabelsDistinct) :
    (reachesNotNotify c env userID sourceID sessionType →
      (modifyMessageByUserMessageReceiveOpt c env userID sourceID sessionType pb).2 =
        forceOfflinePushOff c pb) ∧
    (¬reachesNotNotify c env userID sourceID sessionType →
      (modifyMessageByUserMessageReceiveOpt c env userID sourceID sessionType pb).2 = pb) := by
  obtain ⟨d1, d2, d3⟩ := Constants.RecvOptLabelsDistinct.ne c hd
  unfold reachesNotNotify
  simp only [modifyMessageByUserMessageReceiveOpt]
  rcases env.GetUserGlobalMsgRecvOpt userID with ⟨opt, _ | err⟩
  · rcases env.GetSingleConversationRecvMsgOpt userID
      (env.GetConversationIDBySessionType sourceID sessionType) with ⟨so, _ | _ | t⟩
    all_goals
      simp only []
      constructor <;> intro h <;> split_ifs <;> simp_all
  · simp

/-- C14: for a recipient whose global receive preference is read as
`NotReceiveMessage`, and a message whose content type is neither
`HasReadReceipt` nor `GroupHasReadReceipt`, the resolver answers "do not send"
with no error, and `sendMsgToGroupOptimization` makes no `MsgToMQ` call for that
recipient. -/
theorem global_notReceive_never_sent (c : Constants) (env : RecvEnv) (v : String)
    (hd : c.RecvOptLabelsDistinct)
    (hglob : env.GetUserGlobalMsgRecvOpt v = (c.NotReceiveMessage, none)) :
    (∀ sourceID sessionType pb, pb.MsgData.ContentType ∉ ExcludeContentType c →
      (modifyMessageByUserMessageReceiveOpt c env v sourceID sessionType pb).1 =
        (false, none)) ∧
    (∀ list groupPB, groupPB.MsgData.ContentType ∉ ExcludeContentType c →
      ∀ p ∈ (sendMsgToGroupOptimization c env list groupPB).sent, p.1 ≠ v) := by
  constructor
  · intro sourceID sessionType pb _
    rw [modifyMessageByUserMessageReceiveOpt_global_notReceive c env v sourceID sessionType pb
      hd hglob]
  · intro list groupPB _ p hp hpv
    obtain ⟨pb1, -, -, -, -, h5, -⟩ :=
      sendLoop_sent c env (tempOptionsOf groupPB) list groupPB p hp
    rw [hpv, modifyMessageByUserMessageReceiveOpt_global_notReceive c env v _ _ pb1 hd hglob]
      at h5
    simp at h5

/-- Witness of `global_notReceive_never_sent`: every user has the global option
`NotReceiveMessage` (1); a text message to `u2` and `u3` is handed to nobody. -/
theorem global_notReceive_never_sent_witness :
    sampleConstants.RecvOptLabelsDistinct ∧
    (sampleReq 2 101).MsgData.ContentType ∉ ExcludeContentType sampleConstants ∧
    (modifyMessageByUserMessageReceiveOpt sampleConstants (sampleRecvEnv (1, none) (0, none))
      "u2" "g" 2 (sampleReq 2 101)).1 = (false, none) ∧
    (∀ p ∈ (sendMsgToGroupOptimization sampleConstants (sampleRecvEnv (1, none) (0, none))
      ["u2", "u3"] (sampleReq 2 101)).sent, p.1 ≠ "u2") :=
  ⟨by decide, by decide,
    (global_notReceive_never_sent sampleConstants (sampleRecvEnv (1, none) (0, none)) "u2"
      (by decide) rfl).1 "g" 2 (sampleReq 2 101) (by decide),
    (global_notReceive_never_sent sampleConstants (sampleRecvEnv (1, none) (0, none)) "u2"
      (by decide) rfl).2 ["u2", "u3"] (sampleReq 2 101) (by decide)⟩

/-- C15 (the code at the failing input): recipient `u2` has the global option
`NotReceiveMessage` (1) and no per-conversation option (`go_redis.Nil`).  For a
`HasReadReceipt` (112) and for a `GroupHasReadReceipt` (116) message the resolver
answers "do not send" and the fan-out hands the message to nobody; with the
global option `ReceiveMessage` (0) and the per-conversation option
`NotReceiveMessage` the same messages are sent. -/
theorem global_notReceive_drops_read_receipt :
    (modifyMessageByUserMessageReceiveOpt sampleConstants
      (sampleRecvEnv (1, none) (0, some StoreError.Nil)) "u2" "g" 2 (sampleReq 2 112)).1 =
        (false, none) ∧
    (modifyMessageByUserMessageReceiveOpt sampleConstants
      (sampleRecvEnv (1, none) (0, some StoreError.Nil)) "u2" "g" 2 (sampleReq 2 116)).1 =
        (false, none) ∧
    (sendMsgToGroupOptimization sampleConstants
      (sampleRecvEnv (1, none) (0, some StoreError.Nil)) ["u2"] (sampleReq 2 112)).sent.map
        Prod.fst = [] ∧
    (modifyMessageByUserMessageReceiveOpt sampleConstants
      (sampleRecvEnv (0, none) (1, none)) "u2" "g" 2 (sampleReq 2 112)).1 = (true, none) ∧
    (modifyMessageByUserMessageReceiveOpt sampleConstants
      (sampleRecvEnv (0, none) (1, none)) "u2" "g" 2 (sampleReq 2 116)).1 = (true, none) := by
  decide

/-- A recipient on which the resolver always answers "send" is handed to
`MsgToMQ` whenever the loop runs to its end without an error. -/
theorem sendLoop_dispatches (c : Constants) (env : RecvEnv) (tempOptions : OptionMap)
    (v gid : String)
    (hsend : ∀ pb, (modifyMessageByUserMessageReceiveOpt c env v gid c.GroupChatType pb).1 =
      (true, none))
    (list : List String) (groupPB : SendMsgReq) (hg : groupPB.MsgData.GroupID = gid)
    (herr : (sendLoop c env tempOptions list groupPB).err = none) (hv : v ∈ list) :
    ∃ p ∈ (sendLoop c env tempOptions list groupPB).sent, p.1 = v := by
  induction list generalizing groupPB with
  | nil => simp at hv
  | cons u list ih =>
    have hf := modifyMessageByUserMessageReceiveOpt_fields c env u groupPB.MsgData.GroupID
      c.GroupChatType (withRecipient groupPB u tempOptions)
    have hgid : (withRecipient groupPB u tempOptions).MsgData.GroupID =
      groupPB.MsgData.GroupID := rfl
    simp only [sendLoop, hgid] at herr ⊢
    rcases hmod : modifyMessageByUserMessageReceiveOpt c env u groupPB.MsgData.GroupID
      c.GroupChatType (withRecipient groupPB u tempOptions) with ⟨⟨isSend, e⟩, pb2⟩
    rw [hmod] at herr hf
    simp only [] at hf
    have hg2 : pb2.MsgData.GroupID = gid := hf.1.trans hg
    cases e with
    | some err => simp at herr
    | none =>
      simp only [] at herr ⊢
      cases isSend with
      | false =>
        simp only [Bool.false_eq_true, if_false] at herr ⊢
        have hne : v ≠ u := by
          intro h
          subst h
          have := hsend (withRecipient groupPB v tempOptions)
          rw [← hg, hmod] at this
          simp at this
        have hv2 : v ∈ list := by
          rcases List.mem_cons.1 hv with h | h
          · exact absurd h hne
          · exact h
        exact ih pb2 hg2 herr hv2
      | true =>
        simp only [if_true] at herr ⊢
        split at herr
        · simp at herr
        · rename_i hargs
          simp only [hargs, if_false]
          split at herr
          · simp at herr
          · rename_i hmq
            simp only [hmq]
            simp only [] at herr
            rcases List.mem_cons.1 hv with h | h
            · exact ⟨(u, pb2.MsgData), List.mem_cons_self _ _, h.symm⟩
            · obtain ⟨p, hp, hpv⟩ := ih pb2 hg2 herr h
              exact ⟨p, List.mem_cons_of_mem _ hp, hpv⟩

/-- A loop over `l1 ++ l2` whose part over `l1` ends without an error goes on with
`l2` from the request that part left: the calls are those of the two parts, and
the error is the one of the second part. -/
theorem sendLoop_append_ok (c : Constants) (env : RecvEnv) (tempOptions : OptionMap)
    (l1 l2 : List String) (groupPB : SendMsgReq)
    (h : (sendLoop c env tempOptions l1 groupPB).err = none) :
    (sendLoop c env tempOptions (l1 ++ l2) groupPB).sent =
      (sendLoop c env tempOptions l1 groupPB).sent ++
        (sendLoop c env tempOptions l2 (sendLoop c env tempOptions l1 groupPB).groupPB).sent ∧
    (sendLoop c env tempOptions (l1 ++ l2) groupPB).err =
      (sendLoop c env tempOptions l2 (sendLoop c env tempOptions l1 groupPB).groupPB).err := by
  induction l1 generalizing groupPB with
  | nil => simp [sendLoop]
  | cons u l1 ih =>
    simp only [List.cons_append, sendLoop] at h ⊢
    rcases hmod : modifyMessageByUserMessageReceiveOpt c env u
      (withRecipient groupPB u tempOptions).MsgData.GroupID c.GroupChatType
      (withRecipient groupPB u tempOptions) with ⟨⟨isSend, e⟩, pb2⟩
    rw [hmod] at h
    cases e with
    | some err => simp at h
    | none =>
      simp only [] at h ⊢
      cases isSend with
      | false =>
        simp only [Bool.false_eq_true, if_false] at h ⊢
        exact ih pb2 h
      | true =>
        simp only [if_true] at h ⊢
        split at h
        · simp at h
        · rename_i hargs
          simp only [hargs, if_false]
          split at h
          · simp at h
          · rename_i hmq
            simp only [hmq]
            simp only [] at h
            obtain ⟨hs, he⟩ := ih pb2 h
            exact ⟨by simp [hs], he⟩

/-- A loop over `l1 ++ l2` whose part over `l1` ends with an error never reaches
`l2`: its calls and its error are those of the part over `l1`. -/
theorem sendLoop_append_err (c : Constants) (env : RecvEnv) (tempOptions : OptionMap)
    (l1 l2 : List String) (groupPB : SendMsgReq)
    (h : (sendLoop c env tempOptions l1 groupPB).err ≠ none) :
    (sendLoop c env tempOptions (l1 ++ l2) groupPB).sent =
      (sendLoop c env tempOptions l1 groupPB).sent ∧
    (sendLoop c env tempOptions (l1 ++ l2) groupPB).err =
      (sendLoop c env tempOptions l1 groupPB).err := by
  induction l1 generalizing groupPB with
  | nil => simp [sendLoop] at h
  | cons u l1 ih =>
    simp only [List.cons_append, sendLoop] at h ⊢
    rcases hmod : modifyMessageByUserMessageReceiveOpt c env u
      (withRecipient groupPB u tempOptions).MsgData.GroupID c.GroupChatType
      (withRecipient groupPB u tempOptions) with ⟨⟨isSend, e⟩, pb2⟩
    rw [hmod] at h
    cases e with
    | some err => simp
    | none =>
      simp only [] at h ⊢
      cases isSend with
      | false =>
        simp only [Bool.false_eq_true, if_false] at h ⊢
        exact ih pb2 h
      | true =>
        simp only [if_true] at h ⊢
        split
        · simp
        · rename_i hargs
          simp only [hargs, if_false] at h
          split
          · simp
          · rename_i hmq
            simp only [hmq] at h
            obtain ⟨hs, he⟩ := ih pb2 h
            exact ⟨by simp [hs], he⟩

/-- A loop that starts at a recipient whose global preference cannot be read makes
no call and returns the error of the store. -/
theorem sendLoop_global_error_head (c : Constants) (env : RecvEnv) (tempOptions : OptionMap)
    (v : String) (rest : List String) (groupPB : SendMsgReq) (x : Int) (err : StoreError)
    (hglob : env.GetUserGlobalMsgRecvOpt v = (x, some err)) :
    (sendLoop c env tempOptions (v :: rest) groupPB).err = some (SendError.store err) ∧
    (sendLoop c env tempOptions (v :: rest) groupPB).sent = [] := by
  simp [sendLoop,
    modifyMessageByUserMessageReceiveOpt_global_error c env v _ _ _ x err hglob]

/-- A loop over a list that holds a recipient whose global preference cannot be
read returns an error. -/
theorem sendLoop_err_of_mem (c : Constants) (env : RecvEnv) (tempOptions : OptionMap)
    (v : String) (x : Int) (err : StoreError)
    (hglob : env.GetUserGlobalMsgRecvOpt v = (x, some err))
    (list : List String) (groupPB : SendMsgReq) (hv : v ∈ list) :
    (sendLoop c env tempOptions list groupPB).err ≠ none := by
  obtain ⟨pre, rest, hl⟩ := List.append_of_mem hv
  subst hl
  clear hv
  induction pre generalizing groupPB with
  | nil =>
    rw [List.nil_append, (sendLoop_global_error_head c env tempOptions v rest groupPB x err
      hglob).1]
    simp
  | cons u pre ih =>
    simp only [List.cons_append, sendLoop]
    rcases hmod : modifyMessageByUserMessageReceiveOpt c env u
      (withRecipient groupPB u tempOptions).MsgData.GroupID c.GroupChatType
      (withRecipient groupPB u tempOptions) with ⟨⟨isSend, e⟩, pb2⟩
    cases e with
    | some e2 => simp
    | none =>
      simp only []
      cases isSend with
      | false =>
        simp only [Bool.false_eq_true, if_false]
        exact ih pb2
      | true =>
        simp only [if_true]
        split
        · simp
        · split
          · simp
          · exact ih pb2

/-- C18 (as the code has it): every message `sendMsgToGroupOptimization` hands to
`MsgToMQ` is addressed to its recipient and carries the option map the request
had before the loop, except that `IsOfflinePush` is `false` exactly when the
resolver reaches a `ReceiveNotNotifyMessage` case for that recipient (its global
option is `ReceiveNotNotifyMessage`, or its global option is neither that nor
`NotReceiveMessage` and its per-conversation option is read as
`ReceiveNotNotifyMessage`).  The condition is about that recipient alone, and no
key other than `IsOfflinePush` differs from the original map. -/
theorem sendMsgToGroupOptimization_options (c : Constants) (env : RecvEnv)
    (list : List String) (groupPB : SendMsgReq) (hd : c.RecvOptLabelsDistinct) :
    ∀ p ∈ (sendMsgToGroupOptimization c env list groupPB).sent,
      p.2.RecvID = p.1 ∧
      (reachesNotNotify c env p.1 groupPB.MsgData.GroupID c.GroupChatType →
        p.2.Options = some ((tempOptionsOf groupPB).insert c.IsOfflinePush false)) ∧
      (¬reachesNotNotify c env p.1 groupPB.MsgData.GroupID c.GroupChatType →
        p.2.Options = some (tempOptionsOf groupPB)) ∧
      ∃ m, p.2.Options = some m ∧ ∀ k, k ≠ c.IsOfflinePush → m k = tempOptionsOf groupPB k := by
  intro p hp
  obtain ⟨pb1, -, -, h3, h4, -, h6⟩ :=
    sendLoop_sent c env (tempOptionsOf groupPB) list groupPB p hp
  have hf := modifyMessageByUserMessageReceiveOpt_fields c env p.1 groupPB.MsgData.GroupID
    c.GroupChatType pb1
  have ho := modifyMessageByUserMessageReceiveOpt_options c env p.1 groupPB.MsgData.GroupID
    c.GroupChatType pb1 hd
  have hforce : (forceOfflinePushOff c pb1).MsgData.Options =
      some ((tempOptionsOf groupPB).insert c.IsOfflinePush false) := by
    simp [forceOfflinePushOff, h3, SetSwitchFromOptions]
  have hon : reachesNotNotify c env p.1 groupPB.MsgData.GroupID c.GroupChatType →
      p.2.Options = some ((tempOptionsOf groupPB).insert c.IsOfflinePush false) := by
    intro hr
    rw [h6, ho.1 hr]
    exact hforce
  have hoff : ¬reachesNotNotify c env p.1 groupPB.MsgData.GroupID c.GroupChatType →
      p.2.Options = some (tempOptionsOf groupPB) := by
    intro hr
    rw [h6, ho.2 hr]
    exact h3
  refine ⟨?_, hon, hoff, ?_⟩
  · rw [h6, hf.2.2.1]
    exact h4
  · by_cases hr : reachesNotNotify c env p.1 groupPB.MsgData.GroupID c.GroupChatType
    · refine ⟨_, hon hr, ?_⟩
      intro k hk
      simp [OptionMap.insert, hk]
    · exact ⟨_, hoff hr, fun _ _ => rfl⟩

/-- Witness of `sendMsgToGroupOptimization_options`: `u2` and `u3` have the global
option `ReceiveNotNotifyMessage` (2); both are sent the message with
`IsOfflinePush = false`. -/
theorem sendMsgToGroupOptimization_options_witness :
    sampleConstants.RecvOptLabelsDistinct ∧
    sentFlags sampleConstants.IsOfflinePush
      (sendMsgToGroupOptimization sampleConstants (sampleRecvEnv (2, none) (0, none))
        ["u2", "u3"] (sampleReq 2 101)).sent =
      [("u2", some (some false)), ("u3", some (some false))] ∧
    (∀ p ∈ (sendMsgToGroupOptimization sampleConstants (sampleRecvEnv (2, none) (0, none))
        ["u2", "u3"] (sampleReq 2 101)).sent,
      ∃ m, p.2.Options = some m ∧ ∀ k, k ≠ sampleConstants.IsOfflinePush →
        m k = tempOptionsOf (sampleReq 2 101) k) :=
  ⟨by decide, by decide, fun p hp =>
    (sendMsgToGroupOptimization_options sampleConstants (sampleRecvEnv (2, none) (0, none))
      ["u2", "u3"] (sampleReq 2 101) (by decide) p hp).2.2.2⟩

/-- C18 (counterexample to the claim as stated): `u2` has the global option
`ReceiveNotNotifyMessage` (2) and the per-conversation option set to
`ReceiveMessage` (0), so the effective preference of the decision matrix is
`ReceiveMessage`, not `ReceiveNotNotifyMessage`; the original option map has no
entry for `IsOfflinePush`, yet the map dispatched for `u2` holds
`IsOfflinePush = false`. -/
theorem sendMsgToGroupOptimization_forces_on_global :
    specEffectivePreference (sampleRecvEnv (2, none) (0, none)) "u2" "g"
      sampleConstants.GroupChatType = some sampleConstants.ReceiveMessage ∧
    tempOptionsOf (sampleReq 2 101) sampleConstants.IsOfflinePush = none ∧
    sentFlags sampleConstants.IsOfflinePush
      (sendMsgToGroupOptimization sampleConstants (sampleRecvEnv (2, none) (0, none))
        ["u2"] (sampleReq 2 101)).sent = [("u2", some (some false))] := by
  decide

/-- When the offline-before hook answers with an error for the recipient, the
sentinel `ErrCallbackContinue` included, `MsgToUser` makes no `Push` call (lines
79-81). -/
theorem MsgToUser_offline_hook_error (c : Constants) (env : PushEnv) (successCount : Nat)
    (userID : String) (msg : MsgData) (err : PushError)
    (h : (env.callbackOfflinePush [userID] msg).2 = some err) :
    pushCalls (MsgToUser c env successCount userID msg).calls = [] := by
  have hg := pushCalls_GetConnsAndOnlinePush env msg [userID]
  rcases hcb : env.callbackOfflinePush [userID] msg with ⟨ids, e⟩
  rw [hcb] at h
  simp only [] at h
  subst h
  unfold MsgToUser
  simp only [hcb]
  split
  · rfl
  · rcases hgc : GetConnsAndOnlinePush env msg [userID] with ⟨calls, r⟩
    rw [hgc] at hg
    simp only [] at hg
    cases r with
    | error e => simpa using hg
    | ok wsResults =>
      simp only []
      repeat' split
      all_goals simp [pushCalls_append, hg, pushCalls]

/-- When the offline-before hook answers with an error for every list, the
sentinel `ErrCallbackContinue` included, the offline block of
`MsgToSuperGroupUser` makes no `Push` call (lines 143-146). -/
theorem superGroupOfflinePush_hook_error (c : Constants) (env : PushEnv) (groupID : String)
    (msg : MsgData) (pushToUserIDs : List String) (wsResults : List SingleMsgToUserResultList)
    (err : PushError) (h : ∀ need, (env.callbackOfflinePush need msg).2 = some err) :
    pushCalls (superGroupOfflinePush c env groupID msg pushToUserIDs wsResults).1 = [] := by
  unfold superGroupOfflinePush
  cases needOfflinePushUserIDs c env groupID msg pushToUserIDs wsResults with
  | error e => rfl
  | ok need =>
    simp only []
    have hn := h need
    rcases hcb : env.callbackOfflinePush need msg with ⟨ids, e⟩
    rw [hcb] at hn
    simp only [] at hn
    subst hn
    split <;> simp [pushCalls]

/-- C19 (the code at the failing input): with the gateway reporting `u3` as not
reached and a message eligible for offline push, an `ErrCallbackContinue` from
the single-message online hook or from the online-before-supergroup hook lets
the call proceed (same calls as with no hook, `nil` returned), but an
`ErrCallbackContinue` from the offline-before hook ends `MsgToUser` and
`MsgToSuperGroupUser` with that error and without a `Push` call. -/
theorem offline_hook_continue_aborts :
    MsgToUser sampleConstants (sampleHookEnv (some PushError.ErrCallbackContinue) none none) 0
      "u3" (sampleMsg sampleConstants 102) =
      MsgToUser sampleConstants (sampleHookEnv none none none) 0 "u3"
        (sampleMsg sampleConstants 102) ∧
    MsgToSuperGroupUser sampleConstants
      (sampleHookEnv none (some PushError.ErrCallbackContinue) none) 0 "g"
      (sampleMsg sampleConstants 102) =
      MsgToSuperGroupUser sampleConstants (sampleHookEnv none none none) 0 "g"
        (sampleMsg sampleConstants 102) ∧
    pushCalls (MsgToUser sampleConstants (sampleHookEnv none none none) 0 "u3"
      (sampleMsg sampleConstants 102)).calls = [["u3"]] ∧
    MsgToUser sampleConstants (sampleHookEnv none none (some PushError.ErrCallbackContinue)) 0
      "u3" (sampleMsg sampleConstants 102) =
      ⟨[Call.onlineBatchPush 0 ["u3"], Call.callbackOfflinePush ["u3"]], 1,
        some PushError.ErrCallbackContinue⟩ ∧
    MsgToSuperGroupUser sampleConstants
      (sampleHookEnv none none (some PushError.ErrCallbackContinue)) 0 "g"
      (sampleMsg sampleConstants 102) =
      ⟨[Call.onlineBatchPush 0 ["u1", "u2", "u3"], Call.callbackOfflinePush ["u2", "u3"]], 1,
        some PushError.ErrCallbackContinue⟩ := by
  decide

/-- An `ErrCallbackContinue` from the single-message online hook is the same to
`MsgToUser` as no error (lines 51-53). -/
theorem MsgToUser_online_hook_continue (c : Constants) (env : PushEnv) (successCount : Nat)
    (userID : String) (msg : MsgData) :
    MsgToUser c { env with callbackOnlinePush := fun _ _ => some PushError.ErrCallbackContinue }
      successCount userID msg =
    MsgToUser c { env with callbackOnlinePush := fun _ _ => none } successCount userID msg := by
  rfl

/-- An `ErrCallbackContinue` from the online-before-supergroup hook is the same to
`MsgToSuperGroupUser` as no error (lines 94-96). -/
theorem MsgToSuperGroupUser_online_hook_continue (c : Constants) (env : PushEnv)
    (successCount : Nat) (groupID : String) (msg : MsgData) (hookUserIDs : List String) :
    MsgToSuperGroupUser c { env with callbackBeforeSuperGroupOnlinePush := fun _ _ =>
        (hookUserIDs, some PushError.ErrCallbackContinue) } successCount groupID msg =
    MsgToSuperGroupUser c { env with callbackBeforeSuperGroupOnlinePush := fun _ _ =>
        (hookUserIDs, none) } successCount groupID msg := by
  rfl

/-- Membership in the list `onlineSuccessUserIDs`: the sender, and every user for
whom some record reports an online push. -/
theorem mem_onlineSuccessUserIDs (sendID : String)
    (wsResults : List SingleMsgToUserResultList) (u : String) :
    u ∈ onlineSuccessUserIDs sendID wsResults ↔
      (u = sendID ∨ ∃ v ∈ wsResults, v.UserID = u ∧ v.OnlinePush = true) := by
  simp only [onlineSuccessUserIDs, List.mem_cons, List.mem_map, List.mem_filter,
    Bool.and_eq_true, bne_iff_ne, ne_eq]
  constructor
  · rintro (h | ⟨v, ⟨hv, hon, -⟩, hu⟩)
    · exact Or.inl h
    · exact Or.inr ⟨v, hv, hu, hon⟩
  · rintro (h | ⟨v, hv, hu, hon⟩)
    · exact Or.inl h
    · by_cases hs : u = sendID
      · exact Or.inl hs
      · exact Or.inr ⟨v, ⟨hv, hon, by rw [hu]; exact hs⟩, hu⟩

/-- Membership in `DifferenceString slice1 slice2`. -/
theorem mem_DifferenceString (slice1 slice2 : List String) (u : String) :
    u ∈ DifferenceString slice1 slice2 ↔ u ∈ slice2 ∧ u ∉ slice1 := by
  simp [DifferenceString]

/-- C20 (as the code has it): for every recipient list and every list of gateway
records, with `onlineSet` the list `onlineSuccessUserIDs` (the sender and every
user for whom some record reports `onlinePush = true`) and `offlineSet` the list
computed for offline push before the offline-before hook: no user is in both,
`offlineSet` is within the recipients, and the sender is never in `offlineSet`;
and `offlineSet ∪ onlineSet` is within `recipients ∪ {sender}` when every record
that reports an online push is for a recipient or for the sender. -/
theorem needOfflinePushUserIDs_sets (c : Constants) (env : PushEnv) (groupID : String)
    (msg : MsgData) (pushToUserIDs : List String) (wsResults : List SingleMsgToUserResultList)
    (need : List String)
    (h : needOfflinePushUserIDs c env groupID msg pushToUserIDs wsResults = .ok need) :
    (∀ u, u ∈ onlineSuccessUserIDs msg.SendID wsResults ↔
      (u = msg.SendID ∨ ∃ v ∈ wsResults, v.UserID = u ∧ v.OnlinePush = true)) ∧
    (∀ u ∈ need, u ∉ onlineSuccessUserIDs msg.SendID wsResults) ∧
    (∀ u ∈ need, u ∈ pushToUserIDs) ∧
    msg.SendID ∉ need ∧
    ((∀ v ∈ wsResults, v.OnlinePush = true →
        v.UserID ∈ pushToUserIDs ∨ v.UserID = msg.SendID) →
      ∀ u, (u ∈ need ∨ u ∈ onlineSuccessUserIDs msg.SendID wsResults) →
        (u ∈ pushToUserIDs ∨ u = msg.SendID)) := by
  have hsub : ∀ u ∈ need, u ∈ pushToUserIDs ∧ u ∉ onlineSuccessUserIDs msg.SendID wsResults := by
    intro u hu
    unfold needOfflinePushUserIDs at h
    simp only [] at h
    split at h
    · split at h
      · cases h
      · cases h
        rw [mem_DifferenceString] at hu
        exact (mem_DifferenceString _ _ _).1 hu.1
    · cases h
      exact (mem_DifferenceString _ _ _).1 hu
  refine ⟨mem_onlineSuccessUserIDs msg.SendID wsResults, fun u hu => (hsub u hu).2,
    fun u hu => (hsub u hu).1, ?_, ?_⟩
  · intro hs
    exact (hsub _ hs).2 ((mem_onlineSuccessUserIDs _ _ _).2 (Or.inl rfl))
  · intro hrec u hu
    rcases hu with hu | hu
    · exact Or.inl (hsub u hu).1
    · rcases (mem_onlineSuccessUserIDs _ _ _).1 hu with hs | ⟨v, hv, hvu, hon⟩
      · exact Or.inr hs
      · rw [← hvu]
        exact hrec v hv hon

/-- Witness of `needOfflinePushUserIDs_sets`: scenario S4, recipients `u1`, `u2`,
`u3`, sender `u1`, `u2` reached online and `u3` not; the offline list is `[u3]`. -/
theorem needOfflinePushUserIDs_sets_witness :
    needOfflinePushUserIDs sampleConstants samplePushEnv "g" (sampleMsg sampleConstants 101)
      ["u1", "u2", "u3"] [⟨"u2", [], true⟩, ⟨"u3", [], false⟩] = .ok ["u3"] ∧
    (∀ u ∈ ["u3"], u ∉ onlineSuccessUserIDs (sampleMsg sampleConstants 101).SendID
      [⟨"u2", [], true⟩, ⟨"u3", [], false⟩]) ∧
    (sampleMsg sampleConstants 101).SendID ∉ ["u3"] :=
  ⟨rfl,
    (needOfflinePushUserIDs_sets sampleConstants samplePushEnv "g"
      (sampleMsg sampleConstants 101) ["u1", "u2", "u3"]
      [⟨"u2", [], true⟩, ⟨"u3", [], false⟩] ["u3"] rfl).2.1,
    by decide⟩

/-- C20 (counterexample to the claim as stated): recipients `[u2]`, sender `u1`, and
a gateway record that reports `u9` online.  The offline list is `[u2]`, `u9` is in
`onlineSet`, and `u9` is neither a recipient nor the sender, so
`offlineSet ∪ onlineSet` is not within `recipients ∪ {sender}`. -/
theorem onlineSet_not_within_recipients :
    needOfflinePushUserIDs sampleConstants samplePushEnv "g" (sampleMsg sampleConstants 101)
      ["u2"] [⟨"u9", [], true⟩] = .ok ["u2"] ∧
    ¬(∀ u, (u ∈ ["u2"] ∨
        u ∈ onlineSuccessUserIDs (sampleMsg sampleConstants 101).SendID [⟨"u9", [], true⟩]) →
      (u ∈ ["u2"] ∨ u = (sampleMsg sampleConstants 101).SendID)) := by
  refine ⟨rfl, ?_⟩
  intro h
  have h9 := h "u9" (Or.inr (by decide))
  revert h9
  decide

/-- The loop of `GetConnsAndOnlinePush` collects the records of the replicas in
replica order. -/
theorem onlinePushLoop_records (msg : MsgData) (pushToUserIDs : List String)
    (conns : List Replica) (i : Nat) :
    (onlinePushLoop msg pushToUserIDs i conns).2 =
      conns.flatMap (replicaRecords msg pushToUserIDs) := by
  induction conns generalizing i with
  | nil => rfl
  | cons v conns ih =>
    rcases h : v msg pushToUserIDs with e | _ | rs <;>
      simp [onlinePushLoop, replicaRecords, h, ih]

/-- The loop of `GetConnsAndOnlinePush` issues one call per replica, in replica
order, each with the recipient list at hand. -/
theorem onlinePushLoop_calls (msg : MsgData) (pushToUserIDs : List String)
    (conns : List Replica) (i : Nat) :
    (onlinePushLoop msg pushToUserIDs i conns).1 =
      (List.range conns.length).map fun k => Call.onlineBatchPush (i + k) pushToUserIDs := by
  induction conns generalizing i with
  | nil => rfl
  | cons v conns ih =>
    have hrest : (onlinePushLoop msg pushToUserIDs (i + 1) conns).1 =
        (List.range conns.length).map fun k => Call.onlineBatchPush (i + (k + 1)) pushToUserIDs := by
      rw [ih (i + 1)]
      apply List.map_congr_left
      intro k _
      rw [Nat.add_assoc, Nat.add_comm 1 k]
    rcases h : v msg pushToUserIDs with e | _ | rs <;>
      simp [onlinePushLoop, h, hrest, List.range_succ_eq_map, Function.comp_def]

/-- C21: `GetConnsAndOnlinePush` returns without error, when discovery succeeds,
the concatenation in replica order of the records of the replicas, a replica
contributing the `SinglePushResult` of its reply when its call succeeds and
nothing when its call fails; an empty replica set gives an empty result without
error; and an error is returned exactly when discovery fails, with that error. -/
theorem GetConnsAndOnlinePush_result (env : PushEnv) (msg : MsgData)
    (pushToUserIDs : List String) :
    (∀ conns, env.GetConns = .ok conns →
      (GetConnsAndOnlinePush env msg pushToUserIDs).2 =
        .ok (conns.flatMap (replicaRecords msg pushToUserIDs))) ∧
    (∀ (v : Replica) err, v msg pushToUserIDs = .error err →
      replicaRecords msg pushToUserIDs v = []) ∧
    (∀ (v : Replica) singlePushResult, v msg pushToUserIDs = .ok (some singlePushResult) →
      replicaRecords msg pushToUserIDs v = singlePushResult) ∧
    (env.GetConns = .ok [] → GetConnsAndOnlinePush env msg pushToUserIDs = ([], .ok [])) ∧
    (∀ err, (GetConnsAndOnlinePush env msg pushToUserIDs).2 = .error err ↔
      env.GetConns = .error err) := by
  refine ⟨?_, ?_, ?_, ?_, ?_⟩
  · intro conns h
    simp [GetConnsAndOnlinePush, h, onlinePushLoop_records]
  · intro v err h
    simp [replicaRecords, h]
  · intro v rs h
    simp [replicaRecords, h]
  · intro h
    simp [GetConnsAndOnlinePush, h, onlinePushLoop]
  · intro err
    unfold GetConnsAndOnlinePush
    cases env.GetConns with
    | error e => simp
    | ok conns => simp

/-- Witness of `GetConnsAndOnlinePush_result`: of three replicas the first reports
`u2` online, the second fails and the third reports `u2` not reached; both records
of `u2` are returned, in replica order, and all three replicas were called. -/
theorem GetConnsAndOnlinePush_result_witness :
    (GetConnsAndOnlinePush sampleThreeReplicaEnv (sampleMsg sampleConstants 101)
      ["u2"]).2 = .ok [⟨"u2", [], true⟩, ⟨"u2", [], false⟩] ∧
    (GetConnsAndOnlinePush sampleThreeReplicaEnv (sampleMsg sampleConstants 101)
      ["u2"]).1 = [Call.onlineBatchPush 0 ["u2"], Call.onlineBatchPush 1 ["u2"],
        Call.onlineBatchPush 2 ["u2"]] :=
  ⟨(GetConnsAndOnlinePush_result sampleThreeReplicaEnv (sampleMsg sampleConstants 101)
      ["u2"]).1 _ rfl, by decide⟩

/-- Membership in `IntersectString slice1 slice2`. -/
theorem mem_IntersectString (slice1 slice2 : List String) (u : String) :
    u ∈ IntersectString slice1 slice2 ↔ u ∈ slice1 ∧ u ∈ slice2 := by
  simp [IntersectString, and_comm]

/-- Membership in the list `WebAndPcBackgroundUserIDs`: the users with a record that
is not online and has a sub-result with code -2 on the PC terminal or on the web
platform. -/
theorem mem_WebAndPcBackgroundUserIDs (c : Constants) (env : PushEnv)
    (wsResults : List SingleMsgToUserResultList) (u : String) :
    u ∈ WebAndPcBackgroundUserIDs c env wsResults ↔
      ∃ v ∈ wsResults, v.UserID = u ∧ v.OnlinePush = false ∧
        ∃ singleResult ∈ v.Resp, singleResult.ResultCode = -2 ∧
          (env.PlatformIDToName singleResult.RecvPlatFormID = c.TerminalPC ∨
            singleResult.RecvPlatFormID = c.WebPlatformID) := by
  simp only [WebAndPcBackgroundUserIDs, List.mem_flatMap]
  constructor
  · rintro ⟨v, hv, hu⟩
    cases hon : v.OnlinePush with
    | true => simp [hon] at hu
    | false =>
      simp only [hon, Bool.not_false, if_true, List.mem_map, List.mem_filter,
        Bool.and_eq_true, Bool.or_eq_true, beq_iff_eq] at hu
      obtain ⟨s, ⟨hs, hcode, hplat⟩, hsu⟩ := hu
      exact ⟨v, hv, hsu, hon, s, hs, hcode, hplat⟩
  · rintro ⟨v, hv, hvu, hon, s, hs, hcode, hplat⟩
    refine ⟨v, hv, ?_⟩
    simp only [hon, Bool.not_false, if_true, List.mem_map, List.mem_filter,
      Bool.and_eq_true, Bool.or_eq_true, beq_iff_eq]
    exact ⟨s, ⟨hs, hcode, hplat⟩, hvu⟩

/-- C22: in `MsgToSuperGroupUser`, once the offline-before hook has answered
without error and the offline push has succeeded, the block goes on with a second
`GetConnsAndOnlinePush`, which calls every replica with one recipient list.  The
list holds a user exactly when the user is in the offline set (the list of the
hook when that is not empty, else the computed one) and has a record with
`onlinePush = false` and a sub-result with code -2 on the PC terminal or on the
web platform. -/
theorem superGroupOfflinePush_second_dispatch (c : Constants) (env : PushEnv)
    (groupID : String) (msg : MsgData) (pushToUserIDs : List String)
    (wsResults : List SingleMsgToUserResultList) (need hookUserIDs : List String)
    (hn : needOfflinePushUserIDs c env groupID msg pushToUserIDs wsResults = .ok need)
    (hpos : need.length > 0)
    (hcb : env.callbackOfflinePush need msg = (hookUserIDs, none))
    (hpush : (offlinePushMsg c env groupID msg hookUserIDs).2 = none) :
    (superGroupOfflinePush c env groupID msg pushToUserIDs wsResults).1 =
      Call.callbackOfflinePush need ::
        ((offlinePushMsg c env groupID msg hookUserIDs).1 ++
          (GetConnsAndOnlinePush env msg
            (IntersectString (if hookUserIDs.length > 0 then hookUserIDs else need)
              (WebAndPcBackgroundUserIDs c env wsResults))).1) ∧
    (∀ conns, env.GetConns = .ok conns →
      (GetConnsAndOnlinePush env msg
        (IntersectString (if hookUserIDs.length > 0 then hookUserIDs else need)
          (WebAndPcBackgroundUserIDs c env wsResults))).1 =
        (List.range conns.length).map fun k => Call.onlineBatchPush k
          (IntersectString (if hookUserIDs.length > 0 then hookUserIDs else need)
            (WebAndPcBackgroundUserIDs c env wsResults))) ∧
    (∀ u, u ∈ IntersectString (if hookUserIDs.length > 0 then hookUserIDs else need)
        (WebAndPcBackgroundUserIDs c env wsResults) ↔
      (u ∈ (if hookUserIDs.length > 0 then hookUserIDs else need) ∧
        ∃ v ∈ wsResults, v.UserID = u ∧ v.OnlinePush = false ∧
          ∃ singleResult ∈ v.Resp, singleResult.ResultCode = -2 ∧
            (env.PlatformIDToName singleResult.RecvPlatFormID = c.TerminalPC ∨
              singleResult.RecvPlatFormID = c.WebPlatformID))) := by
  refine ⟨?_, ?_, ?_⟩
  · simp only [superGroupOfflinePush, hn, hpos, if_true, hcb, hpush]
    split <;> rfl
  · intro conns hc
    simp [GetConnsAndOnlinePush, hc, onlinePushLoop_calls]
  · intro u
    rw [mem_IntersectString, mem_WebAndPcBackgroundUserIDs]

/-- Witness of `superGroupOfflinePush_second_dispatch`, scenario S5: members `u1`,
`u2`, sender `u1`, the gateway reports `u2` not reached with code -2 on the web
platform; the second online push goes to `[u2]`. -/
theorem superGroupOfflinePush_second_dispatch_witness :
    needOfflinePushUserIDs sampleConstants sampleBackgroundEnv "g"
      (sampleMsg sampleConstants 101) ["u1", "u2"] [⟨"u2", [⟨-2, 5⟩], false⟩] = .ok ["u2"] ∧
    (superGroupOfflinePush sampleConstants sampleBackgroundEnv "g"
      (sampleMsg sampleConstants 101) ["u1", "u2"] [⟨"u2", [⟨-2, 5⟩], false⟩]).1 =
      Call.callbackOfflinePush ["u2"] ::
        ((offlinePushMsg sampleConstants sampleBackgroundEnv "g"
          (sampleMsg sampleConstants 101) []).1 ++
          (GetConnsAndOnlinePush sampleBackgroundEnv (sampleMsg sampleConstants 101)
            (IntersectString (if ([] : List String).length > 0 then [] else ["u2"])
              (WebAndPcBackgroundUserIDs sampleConstants sampleBackgroundEnv
                [⟨"u2", [⟨-2, 5⟩], false⟩]))).1) ∧
    IntersectString (if ([] : List String).length > 0 then [] else ["u2"])
      (WebAndPcBackgroundUserIDs sampleConstants sampleBackgroundEnv
        [⟨"u2", [⟨-2, 5⟩], false⟩]) = ["u2"] ∧
    (MsgToSuperGroupUser sampleConstants sampleBackgroundEnv 0 "g"
      (sampleMsg sampleConstants 101)).calls =
      [Call.onlineBatchPush 0 ["u1", "u2"], Call.callbackOfflinePush ["u2"],
        Call.push [] "[Msg]" "[Msg]" ⟨none, 0, "", ""⟩, Call.promeInc true,
        Call.onlineBatchPush 0 ["u2"]] :=
  ⟨rfl,
    (superGroupOfflinePush_second_dispatch sampleConstants sampleBackgroundEnv "g"
      (sampleMsg sampleConstants 101) ["u1", "u2"] [⟨"u2", [⟨-2, 5⟩], false⟩] ["u2"] []
      rfl (by decide) rfl rfl).1,
    by decide, by decide⟩

/-- Writing a key twice with the same value is writing it once. -/
theorem SetSwitchFromOptions_twice (options : Option OptionMap) (key : String) (value : Bool) :
    SetSwitchFromOptions (SetSwitchFromOptions options key value) key value =
      SetSwitchFromOptions options key value := by
  cases options with
  | none => rfl
  | some m =>
    simp only [SetSwitchFromOptions, Option.map_some']
    congr 1
    funext k
    simp only [OptionMap.insert]
    split_ifs <;> rfl

/-- The function `encapsulateMsgData` keeps the content type. -/
theorem encapsulateMsgData_ContentType (c : Constants) (serverMsgID : String) (sendTime : Int)
    (msg : MsgData) :
    (encapsulateMsgData c serverMsgID sendTime msg).ContentType = msg.ContentType := by
  simp only [encapsulateMsgData]
  split_ifs <;> rfl

/-- C23: the option normalisation of `encapsulateMsgData` is idempotent: for every
content type and every option map, a second application (whatever server message
id and send time it stamps) leaves the option map as the first application left
it. -/
theorem encapsulateMsgData_idempotent (c : Constants) (serverMsgID1 serverMsgID2 : String)
    (sendTime1 sendTime2 : Int) (msg : MsgData) :
    (encapsulateMsgData c serverMsgID2 sendTime2
      (encapsulateMsgData c serverMsgID1 sendTime1 msg)).Options =
      (encapsulateMsgData c serverMsgID1 sendTime1 msg).Options := by
  cases ho : msg.Options with
  | none =>
    simp only [encapsulateMsgData, ho, SetSwitchFromOptions, Option.map_none']
    split_ifs <;> simp_all
  | some m =>
    by_cases h1 : msg.ContentType ∈ c.ordinaryLabels
    · simp only [encapsulateMsgData, h1, if_true, ho, SetSwitchFromOptions, Option.map_some']
      congr 1
      funext k
      simp only [OptionMap.insert]
      split_ifs <;> rfl
    by_cases h2 : msg.ContentType = c.Revoke
    · rw [h2] at h1
      simp only [encapsulateMsgData, h1, h2, if_true, if_false, ho, SetSwitchFromOptions,
        Option.map_some']
      congr 1
      funext k
      simp only [OptionMap.insert]
      split_ifs <;> rfl
    by_cases h3 : msg.ContentType = c.HasReadReceipt
    · rw [h3] at h1 h2
      simp only [encapsulateMsgData, h1, h2, h3, if_true, if_false, ho, SetSwitchFromOptions,
        Option.map_some']
      congr 1
      funext k
      simp only [OptionMap.insert]
      split_ifs <;> rfl
    by_cases h4 : msg.ContentType = c.Typing
    · rw [h4] at h1 h2 h3
      simp only [encapsulateMsgData, h1, h2, h3, h4, if_true, if_false, ho,
        SetSwitchFromOptions, Option.map_some']
      congr 1
      funext k
      simp only [OptionMap.insert]
      split_ifs <;> rfl
    · simp only [encapsulateMsgData, h1, h2, h3, h4, if_false, ho]

/-- The result of `getOfflinePushInfos` with a provider configured: the error of
`GetOfflinePushOpts`, or the title (provided, else derived), the body (provided,
else the title) and the options. -/
theorem getOfflinePushInfos_configured (c : Constants) (env : PushEnv) (sourceID : String)
    (msg : MsgData) (hconf : env.offlinePusherConfigured = true) :
    getOfflinePushInfos c env sourceID msg =
      match GetOfflinePushOpts c env msg with
      | .error err => .error err
      | .ok opts =>
        .ok (if providedTitle msg = "" then derivedTitle c env sourceID msg
              else providedTitle msg,
          if providedDesc msg = "" then
            (if providedTitle msg = "" then derivedTitle c env sourceID msg
              else providedTitle msg)
          else providedDesc msg, opts) := by
  simp only [getOfflinePushInfos, hconf, Bool.not_true, Bool.false_eq_true, if_false,
    providedTitle, providedDesc]

/-- The labels of the title `switch` after the first five are not among the first
five, and differ from each other. -/
theorem Constants.TitleLabelsDistinct.later_labels (c : Constants) (hd : c.TitleLabelsDistinct) :
    c.AtText ∉ [c.Text, c.Picture, c.Voice, c.Video, c.File] ∧
    c.SignalingNotification ∉ [c.Text, c.Picture, c.Voice, c.Video, c.File] ∧
    c.SignalingNotification ≠ c.AtText := by
  have h : ([c.Text, c.Picture, c.Voice, c.Video, c.File] ++
      [c.AtText, c.SignalingNotification]).Nodup := hd
  rw [List.nodup_append] at h
  obtain ⟨-, h2, h3⟩ := h
  have hdis : ∀ x, x ∈ [c.AtText, c.SignalingNotification] →
      x ∉ [c.Text, c.Picture, c.Voice, c.Video, c.File] := fun x hx hmem => h3 hmem hx
  refine ⟨hdis _ (by simp), hdis _ (by simp), ?_⟩
  intro h
  simp [h] at h2

/-- A string followed by another is empty only if it is empty itself. -/
theorem append_ne_empty_of_left (a b : String) (h : a ≠ "") : a ++ b ≠ "" := by
  intro hab
  apply h
  have hl : (a ++ b).length = 0 := by rw [hab]; rfl
  rw [String.length_append] at hl
  have ha : a.length = 0 := by omega
  cases a with
  | mk data =>
    have hd : data = [] := List.length_eq_zero.1 ha
    subst hd
    rfl

/-- With an entry for every key that is looked up, the title derived from the content
type is not empty. -/
theorem derivedTitle_ne_empty (c : Constants) (env : PushEnv) (sourceID : String)
    (msg : MsgData) (htable : env.TableHasEntries c) :
    derivedTitle c env sourceID msg ≠ "" := by
  unfold PushEnv.TableHasEntries at htable
  unfold derivedTitle
  split_ifs with h1 h2 h3 h4
  · apply htable
    simp only [List.mem_cons] at h1 ⊢
    tauto
  · exact append_ne_empty_of_left _ _ (htable _ (by simp))
  · exact htable _ (by simp)
  · exact htable _ (by simp)
  · exact htable _ (by simp)

/-- An early return of the `AdvancedRevoke` step is a deny with code 201 and no
member list. -/
theorem advancedRevoke_error (c : Constants) (env : MsgEnv) (data : SendMsgReq) (ret : Verdict)
    (h : advancedRevoke c env data = .error ret) :
    ∃ reason, ret = (false, 201, reason, []) := by
  unfold advancedRevoke at h
  split at h
  · split at h
    · cases h; exact ⟨_, rfl⟩
    · split at h
      · split at h
        · cases h
        · split at h
          · cases h
          · split at h
            · cases h; exact ⟨_, rfl⟩
            · split at h
              · cases h
              · cases h; exact ⟨_, rfl⟩
      · cases h
  · cases h

/-- Every tuple `messageVerification` returns is an allow `(true, 0, "", list)` or a
deny `(false, code, reason, nil)` with a code of the deny table: a property that
holds of all such tuples holds of the returned one. -/
theorem messageVerification_verdict_cases (c : Constants) (env : MsgEnv) (data : SendMsgReq)
    (P : Verdict → Prop)
    (hallow : ∀ userIDList, P (true, 0, "", userIDList))
    (hdeny : ∀ code reason, code ∈ ([201, 202, 223, 224, 225, 600, 601] : List Int) →
      P (false, code, reason, [])) :
    P (messageVerification c env data).1 := by
  by_cases h1 : data.MsgData.SessionType = c.SingleChatType
  · simp only [messageVerification, h1, if_true]
    repeat' split
    all_goals first
      | exact hallow _
      | exact hdeny _ _ (by simp)
  by_cases h2 : data.MsgData.SessionType = c.GroupChatType
  · simp only [messageVerification, h1, h2, if_true, if_false]
    repeat' split
    all_goals first
      | exact hallow _
      | exact hdeny _ _ (by simp)
  by_cases h3 : data.MsgData.SessionType = c.SuperGroupChatType
  · simp only [messageVerification, h1, h2, if_false]
    simp only [h3, if_true]
    cases env.GetGroupInfoFromCache data.MsgData.GroupID with
    | error err => exact hdeny _ _ (by simp)
    | ok groupInfo =>
      cases hadv : advancedRevoke c env data with
      | error ret =>
        obtain ⟨reason, hr⟩ := advancedRevoke_error c env data ret hadv
        subst hr
        exact hdeny _ _ (by simp)
      | ok d =>
        simp only []
        repeat' split
        all_goals first
          | exact hallow _
          | exact hdeny _ _ (by simp)
  · simp only [messageVerification, h1, h2, h3, if_false]
    exact hallow _

/-- C26: for every request and every outcome of the lookups the tuple returned by
`messageVerification` is well formed: an allow carries code 0 and an empty
reason; a deny carries a code among 201, 202, 223, 224, 225, 600, 601 and no
member list; a single-session verdict carries no member list; and a request
whose session type is none of single, group and super-group is allowed with
code 0, an empty reason and no member list, the request being left as it was. -/
theorem messageVerification_well_formed (c : Constants) (env : MsgEnv) (data : SendMsgReq) :
    ((messageVerification c env data).1.1 = true →
      (messageVerification c env data).1.2.1 = 0 ∧
        (messageVerification c env data).1.2.2.1 = "") ∧
    ((messageVerification c env data).1.1 = false →
      (messageVerification c env data).1.2.1 ∈ ([201, 202, 223, 224, 225, 600, 601] : List Int) ∧
        (messageVerification c env data).1.2.2.2 = []) ∧
    ((messageVerification c env data).1.2.1 ≠ 0 → (messageVerification c env data).1.1 = false) ∧
    (data.MsgData.SessionType = c.SingleChatType →
      (messageVerification c env data).1.2.2.2 = []) ∧
    (data.MsgData.SessionType ≠ c.SingleChatType →
      data.MsgData.SessionType ≠ c.GroupChatType →
      data.MsgData.SessionType ≠ c.SuperGroupChatType →
      messageVerification c env data = ((true, 0, "", []), data)) := by
  refine ⟨?_, ?_, ?_, ?_, ?_⟩
  · exact messageVerification_verdict_cases c env data
      (fun r => r.1 = true → r.2.1 = 0 ∧ r.2.2.1 = "")
      (fun _ _ => ⟨rfl, rfl⟩) (fun _ _ _ h => by simp at h)
  · exact messageVerification_verdict_cases c env data
      (fun r => r.1 = false →
        r.2.1 ∈ ([201, 202, 223, 224, 225, 600, 601] : List Int) ∧ r.2.2.2 = [])
      (fun _ h => by simp at h) (fun _ _ hc _ => ⟨hc, rfl⟩)
  · exact messageVerification_verdict_cases c env data
      (fun r => r.2.1 ≠ 0 → r.1 = false)
      (fun _ h => by simp at h) (fun _ _ _ _ => rfl)
  · intro hs
    simp only [messageVerification, hs, if_true]
    repeat' split
    all_goals rfl
  · intro h1 h2 h3
    simp only [messageVerification, h1, h2, h3, if_false]

/-- Witness of `messageVerification_well_formed`: a request of session type 4 is
allowed with no member list, and the deny of an outsider of a classic group
carries a code of the table and no member list. -/
theorem messageVerification_well_formed_witness :
    (sampleReq 4 101).MsgData.SessionType ≠ sampleConstants.SingleChatType ∧
    (sampleReq 4 101).MsgData.SessionType ≠ sampleConstants.GroupChatType ∧
    (sampleReq 4 101).MsgData.SessionType ≠ sampleConstants.SuperGroupChatType ∧
    (messageVerification sampleConstants (sampleEnv ⟨0, 1⟩ ⟨0, 0⟩) (sampleReq 4 101)).1 =
      (true, 0, "", []) ∧
    (messageVerification sampleConstants (sampleEnv ⟨0, 1⟩ ⟨0, 0⟩)
      (sampleOutsiderReq 2 101)).1.1 = false ∧
    ((messageVerification sampleConstants (sampleEnv ⟨0, 1⟩ ⟨0, 0⟩)
        (sampleOutsiderReq 2 101)).1.2.1 ∈ ([201, 202, 223, 224, 225, 600, 601] : List Int) ∧
      (messageVerification sampleConstants (sampleEnv ⟨0, 1⟩ ⟨0, 0⟩)
        (sampleOutsiderReq 2 101)).1.2.2.2 = []) :=
  ⟨by decide, by decide, by decide,
    congrArg Prod.fst ((messageVerification_well_formed sampleConstants
      (sampleEnv ⟨0, 1⟩ ⟨0, 0⟩) (sampleReq 4 101)).2.2.2.2 (by decide) (by decide) (by decide)),
    by decide,
    (messageVerification_well_formed sampleConstants (sampleEnv ⟨0, 1⟩ ⟨0, 0⟩)
      (sampleOutsiderReq 2 101)).2.1 (by decide)⟩

/-- The normalisation applied twice on an example: a `Typing` message whose option
map holds `true` for every key has its seven flags off after one application and
after two. -/
theorem encapsulateMsgData_idempotent_example :
    ((encapsulateMsgData sampleConstants "s2" 6 (encapsulateMsgData sampleConstants "s1" 5
        (sampleMsgAllOn sampleConstants 113))).Options.map
      fun m => [m "history", m "persistent", m "senderSync", m "conversationUpdate",
        m "senderConversationUpdate", m "unreadCount", m "offlinePush", m "other"]) =
      some [some false, some false, some false, some false, some false, some false,
        some false, some true] ∧
    ((encapsulateMsgData sampleConstants "s1" 5
        (sampleMsgAllOn sampleConstants 113)).Options.map
      fun m => [m "history", m "persistent", m "senderSync", m "conversationUpdate",
        m "senderConversationUpdate", m "unreadCount", m "offlinePush", m "other"]) =
      some [some false, some false, some false, some false, some false, some false,
        some false, some true] := by
  decide

end OpenIM
